import Mathlib

/-!
Shallow embedding of `src/deno_webgpu/command_encoder.rs`: the command-encoder
ops of the deno_webgpu bridge.  Wire-format descriptor structs, the translation
into `wgpu_core` command records, and the op functions are translated directly
from the Rust source.  The deno_core resource table, the `gfx_ok!`/`gfx_put!`
macros and the wgpu backend are collaborators whose code is not under `src/`;
they are modelled from the spec where a claim depends on them (each such
definition carries a `Modelled from the spec:` doc comment).
-/

namespace DenoWebGpu

/-- An `f64` value carried on the wire.  The code never computes with floats:
every `f64` is deserialized and moved verbatim into a backend record, so we
represent it opaquely by its bit pattern. -/
structure F64 where
  bits : Nat
deriving DecidableEq, Repr

/-- The `f64` zero (`0.0`, all bits clear), the value `Default::default()`
produces for a float field. -/
def F64.zero : F64 := ⟨0⟩

instance : Inhabited F64 := ⟨F64.zero⟩

/-- An `f32` value carried on the wire, represented opaquely by its bit
pattern (never computed with, only moved verbatim). -/
structure F32 where
  bits : Nat
deriving DecidableEq, Repr

/-- The `f32` zero (`0.0`). -/
def F32.zero : F32 := ⟨0⟩

instance : Inhabited F32 := ⟨F32.zero⟩

/-- Error taxonomy of this layer, named as in the spec (§7).  In the Rust
source the resource-table failures are `AnyError` values ("bad resource id");
the spec calls that case `InvalidHandle`.  Backend-reported failures are
carried in-band inside `WebGpuResult`. -/
inductive WebGpuError where
  | invalidHandle
  | invalidEncoderState
  | encoderOperationFailed
  | backendFailure
deriving DecidableEq, Repr

/-! ## Wire-format descriptor types (from `command_encoder.rs`) -/

/-- Wire color, `GpuColor` (four `f64` components), deserialized from the
caller.  Its defining module `render_pass.rs` is not under `src/`; the field
shape is fixed by the spec ("RGBA color") and by its verbatim use at
`command_encoder.rs:152-157`. -/
structure GpuColor where
  r : F64
  g : F64
  b : F64
  a : F64
deriving DecidableEq, Repr

/-- `GpuLoadOp<T>`: `Load` (no payload) or `Clear(T)` (`command_encoder.rs:68-73`). -/
inductive GpuLoadOp (T : Type) where
  | Load
  | Clear (value : T)
deriving DecidableEq, Repr

/-- `GpuStoreOp` (`command_encoder.rs:75-80`). -/
inductive GpuStoreOp where
  | Store
  | Discard
deriving DecidableEq, Repr

/-- Wire color attachment (`command_encoder.rs:59-66`).  Resource ids are
`u32` handles, modelled as `Nat`. -/
structure GpuRenderPassColorAttachment where
  view : Nat
  resolve_target : Option Nat
  load_op : GpuLoadOp GpuColor
  store_op : GpuStoreOp
deriving DecidableEq, Repr

/-- Wire depth/stencil attachment (`command_encoder.rs:91-101`).  The depth
clear payload is `f32`, the stencil one `u32`. -/
structure GpuRenderPassDepthStencilAttachment where
  view : Nat
  depth_load_op : GpuLoadOp F32
  depth_store_op : GpuStoreOp
  depth_read_only : Bool
  stencil_load_op : GpuLoadOp Nat
  stencil_store_op : GpuStoreOp
  stencil_read_only : Bool
deriving DecidableEq, Repr

/-- Wire `GpuImageCopyBuffer` (`command_encoder.rs:295-302`):
`bytes_per_row`/`rows_per_image` are `Option<u32>`. -/
structure GpuImageCopyBuffer where
  buffer : Nat
  offset : Nat
  bytes_per_row : Option Nat
  rows_per_image : Option Nat
deriving DecidableEq, Repr

/-- Wire `GpuOrigin3D` (`command_encoder.rs:304-310`). -/
structure GpuOrigin3D where
  x : Nat
  y : Nat
  z : Nat
deriving DecidableEq, Repr

/-- Modelled from the spec: `GpuTextureAspect` is declared in `texture.rs`,
which is not under `src/`; the spec (§3) names the `aspect` field of an image
copy as a variant tag mapped 1:1 onto the backend enum. -/
inductive GpuTextureAspect where
  | all
  | stencilOnly
  | depthOnly
deriving DecidableEq, Repr

/-- Wire `GpuImageCopyTexture` (`command_encoder.rs:322-329`). -/
structure GpuImageCopyTexture where
  texture : Nat
  mip_level : Nat
  origin : GpuOrigin3D
  aspect : GpuTextureAspect
deriving DecidableEq, Repr

/-- Modelled from the spec: `GpuExtent3D` is declared in `texture.rs`, not
under `src/`; the spec (§3) fixes its shape as width/height/depth-or-array-
layers, copied field-wise to the backend extent. -/
structure GpuExtent3D where
  width : Nat
  height : Nat
  depth_or_array_layers : Nat
deriving DecidableEq, Repr

/-! ## Backend (`wgpu_core` / `wgpu_types`) record types

Plain data produced by the translation; shapes taken from their verbatim
construction sites in `command_encoder.rs`. -/

/-- Backend `wgpu_core::command::LoadOp`. -/
inductive LoadOp where
  | Load
  | Clear
deriving DecidableEq, Repr

/-- Backend `wgpu_core::command::StoreOp`. -/
inductive StoreOp where
  | Store
  | Discard
deriving DecidableEq, Repr

/-- `From<GpuStoreOp> for StoreOp` (`command_encoder.rs:82-89`). -/
def GpuStoreOp.toStoreOp : GpuStoreOp → StoreOp
  | .Store => .Store
  | .Discard => .Discard

/-- Backend `wgpu_types::Color` (four `f64` components). -/
structure Color where
  r : F64
  g : F64
  b : F64
  a : F64
deriving DecidableEq, Repr

/-- `Default::default()` for `wgpu_types::Color`: the all-zero color. -/
def Color.default : Color := ⟨F64.zero, F64.zero, F64.zero, F64.zero⟩

instance : Inhabited Color := ⟨Color.default⟩

/-- Backend `wgpu_core::command::PassChannel<V>`. -/
structure PassChannel (V : Type) where
  load_op : LoadOp
  store_op : StoreOp
  clear_value : V
  read_only : Bool
deriving DecidableEq, Repr

/-- Backend `wgpu_core::command::RenderPassColorAttachment`.  Texture-view
ids are the backend-native identifiers (modelled as `Nat`). -/
structure RenderPassColorAttachment where
  view : Nat
  resolve_target : Option Nat
  channel : PassChannel Color
deriving DecidableEq, Repr

/-- Backend `wgpu_core::command::RenderPassDepthStencilAttachment`. -/
structure RenderPassDepthStencilAttachment where
  view : Nat
  depth : PassChannel F32
  stencil : PassChannel Nat
deriving DecidableEq, Repr

/-- Backend `wgpu_core::command::RenderPassDescriptor`. -/
structure RenderPassDescriptor where
  label : Option String
  color_attachments : List RenderPassColorAttachment
  depth_stencil_attachment : Option RenderPassDepthStencilAttachment
deriving DecidableEq, Repr

/-- Backend `wgpu_types::Origin3d`. -/
structure Origin3d where
  x : Nat
  y : Nat
  z : Nat
deriving DecidableEq, Repr

/-- `From<GpuOrigin3D> for Origin3d` (`command_encoder.rs:312-320`). -/
def GpuOrigin3D.toOrigin3d (o : GpuOrigin3D) : Origin3d :=
  ⟨o.x, o.y, o.z⟩

/-- Backend `wgpu_types::TextureAspect`. -/
inductive TextureAspect where
  | all
  | stencilOnly
  | depthOnly
deriving DecidableEq, Repr

/-- Modelled from the spec: the `From<GpuTextureAspect>` conversion lives in
`texture.rs` (not under `src/`); the spec (§4.2) says aspect tags map 1:1
onto the backend enum. -/
def GpuTextureAspect.toTextureAspect : GpuTextureAspect → TextureAspect
  | .all => .all
  | .stencilOnly => .stencilOnly
  | .depthOnly => .depthOnly

/-- `NonZeroU32::new`: `none` exactly on input `0`. -/
def nonZeroU32New (n : Nat) : Option Nat :=
  if n = 0 then none else some n

/-- Backend `wgpu_types::ImageDataLayout`.  The
`bytes_per_row`/`rows_per_image` fields are `Option<NonZeroU32>`: `none` is
the "unspecified" representation. -/
structure ImageDataLayout where
  offset : Nat
  bytes_per_row : Option Nat
  rows_per_image : Option Nat
deriving DecidableEq, Repr

/-- Backend `wgpu_core::command::ImageCopyBuffer`. -/
structure ImageCopyBuffer where
  buffer : Nat
  layout : ImageDataLayout
deriving DecidableEq, Repr

/-- Backend `wgpu_core::command::ImageCopyTexture`. -/
structure ImageCopyTexture where
  texture : Nat
  mip_level : Nat
  origin : Origin3d
  aspect : TextureAspect
deriving DecidableEq, Repr

/-- Backend `wgpu_types::Extent3d`. -/
structure Extent3d where
  width : Nat
  height : Nat
  depth_or_array_layers : Nat
deriving DecidableEq, Repr

/-- Modelled from the spec: the `From<GpuExtent3D>` conversion lives in
`texture.rs` (not under `src/`); the spec (§4.2) says extent fields are
copied field-wise. -/
def GpuExtent3D.toExtent3d (e : GpuExtent3D) : Extent3d :=
  ⟨e.width, e.height, e.depth_or_array_layers⟩

/-! ## Resource table

Modelled from the spec (§4.1, §9): the deno_core `ResourceTable` is not under
`src/`.  The spec describes a registry keyed by small integer handles with a
monotonically growing index (handles never reused), non-destructive typed
`get` and destructive typed `take`, both failing with `InvalidHandle` when the
handle is absent or the stored entry's tag does not match. -/

/-- Entries a resource table slot can hold.  Each wraps exactly one
backend-native identifier, except the pass recorders, which (as in
`command_encoder.rs:212-218` / `243-250`) hold the freshly constructed pass
recorder value itself. -/
inductive ResourceEntry where
  | commandEncoder (id : Nat)
  | commandBuffer (id : Nat)
  | buffer (id : Nat)
  | texture (id : Nat)
  | textureView (id : Nat)
  | querySet (id : Nat)
  | device (id : Nat)
  | renderPass (parent : Nat) (descriptor : RenderPassDescriptor)
  | computePass (parent : Nat) (label : Option String)
deriving DecidableEq, Repr

/-- The tag of an entry, standing for the Rust downcast target type. -/
inductive ResourceKind where
  | commandEncoder
  | commandBuffer
  | buffer
  | texture
  | textureView
  | querySet
  | device
  | renderPass
  | computePass
deriving DecidableEq, Repr

/-- Tag carried by an entry. -/
def ResourceEntry.kind : ResourceEntry → ResourceKind
  | .commandEncoder _ => .commandEncoder
  | .commandBuffer _ => .commandBuffer
  | .buffer _ => .buffer
  | .texture _ => .texture
  | .textureView _ => .textureView
  | .querySet _ => .querySet
  | .device _ => .device
  | .renderPass _ _ => .renderPass
  | .computePass _ _ => .computePass

/-- Association-list lookup on table slots. -/
def findEntry : List (Nat × ResourceEntry) → Nat → Option ResourceEntry
  | [], _ => none
  | (k, e) :: rest, rid => if k = rid then some e else findEntry rest rid

/-- Remove the slot of a handle. -/
def eraseEntry : List (Nat × ResourceEntry) → Nat → List (Nat × ResourceEntry)
  | [], _ => []
  | (k, e) :: rest, rid =>
    if k = rid then eraseEntry rest rid else (k, e) :: eraseEntry rest rid

/-- Modelled from the spec: the resource table (§4.1), an index map with a
monotonically growing next-handle counter (§9: handles never reused). -/
structure ResourceTable where
  nextRid : Nat
  entries : List (Nat × ResourceEntry)
deriving DecidableEq, Repr

/-- Raw slot lookup. -/
def ResourceTable.find (t : ResourceTable) (rid : Nat) : Option ResourceEntry :=
  findEntry t.entries rid

/-- Modelled from the spec: `insert(entry) -> handle` allocates a fresh,
currently-unused handle (§4.1). -/
def ResourceTable.add (t : ResourceTable) (e : ResourceEntry) :
    Nat × ResourceTable :=
  (t.nextRid, ⟨t.nextRid + 1, (t.nextRid, e) :: t.entries⟩)

/-- Modelled from the spec: `get::<T>(handle)` fails with `InvalidHandle` if
absent or if the stored entry's tag does not match `T` (§4.1). -/
def ResourceTable.get (t : ResourceTable) (k : ResourceKind) (rid : Nat) :
    Except WebGpuError ResourceEntry :=
  match t.find rid with
  | some e => if e.kind = k then .ok e else .error .invalidHandle
  | none => .error .invalidHandle

/-- Modelled from the spec: `take::<T>(handle)` is `get` plus removal of the
entry (§4.1). -/
def ResourceTable.take (t : ResourceTable) (k : ResourceKind) (rid : Nat) :
    Except WebGpuError (ResourceEntry × ResourceTable) :=
  match t.get k rid with
  | .ok e => .ok (e, ⟨t.nextRid, eraseEntry t.entries rid⟩)
  | .error err => .error err

/-- `get::<WebGpuCommandEncoder>(rid)` followed by `.0`: the backend encoder
id behind the handle. -/
def ResourceTable.getCommandEncoderId (t : ResourceTable) (rid : Nat) :
    Except WebGpuError Nat :=
  match t.find rid with
  | some (.commandEncoder id) => .ok id
  | some _ => .error .invalidHandle
  | none => .error .invalidHandle

/-- `get::<WebGpuBuffer>(rid)` followed by `.0`. -/
def ResourceTable.getBufferId (t : ResourceTable) (rid : Nat) :
    Except WebGpuError Nat :=
  match t.find rid with
  | some (.buffer id) => .ok id
  | some _ => .error .invalidHandle
  | none => .error .invalidHandle

/-- `get::<WebGpuTexture>(rid)` followed by `.0`. -/
def ResourceTable.getTextureId (t : ResourceTable) (rid : Nat) :
    Except WebGpuError Nat :=
  match t.find rid with
  | some (.texture id) => .ok id
  | some _ => .error .invalidHandle
  | none => .error .invalidHandle

/-- `get::<WebGpuTextureView>(rid)` followed by `.0`. -/
def ResourceTable.getTextureViewId (t : ResourceTable) (rid : Nat) :
    Except WebGpuError Nat :=
  match t.find rid with
  | some (.textureView id) => .ok id
  | some _ => .error .invalidHandle
  | none => .error .invalidHandle

/-- `get::<WebGpuQuerySet>(rid)` followed by `.0`. -/
def ResourceTable.getQuerySetId (t : ResourceTable) (rid : Nat) :
    Except WebGpuError Nat :=
  match t.find rid with
  | some (.querySet id) => .ok id
  | some _ => .error .invalidHandle
  | none => .error .invalidHandle

/-- `get::<WebGpuDevice>(rid)` followed by `.0`. -/
def ResourceTable.getDeviceId (t : ResourceTable) (rid : Nat) :
    Except WebGpuError Nat :=
  match t.find rid with
  | some (.device id) => .ok id
  | some _ => .error .invalidHandle
  | none => .error .invalidHandle

/-- `take::<WebGpuCommandEncoder>(rid)` followed by `.0`: the encoder id and
the table with the entry removed (type check before removal). -/
def ResourceTable.takeCommandEncoderId (t : ResourceTable) (rid : Nat) :
    Except WebGpuError (Nat × ResourceTable) :=
  match t.find rid with
  | some (.commandEncoder id) => .ok (id, ⟨t.nextRid, eraseEntry t.entries rid⟩)
  | some _ => .error .invalidHandle
  | none => .error .invalidHandle

/-- Table well-formedness: every live handle is below the next-handle
counter (holds for every table built by `add`/`take` from empty). -/
def ResourceTable.WF (t : ResourceTable) : Prop :=
  ∀ p ∈ t.entries, p.1 < t.nextRid

/-! ## Backend model

Modelled from the spec (§6): the `wgpu_core` instance ("graphics backend") is
an external collaborator, not under `src/`.  It is keyed by its own native
identifiers; a command encoder accumulates a command stream; finishing an
encoder with a still-open pass or popping an unopened debug group are
backend-reported failures (§4.4, §8 Scenario 2). -/

/-- Backend commands an encoder stream can record, one per translation
pass-through op of `command_encoder.rs`, carrying the translated records. -/
inductive BackendCommand where
  | copyBufferToBuffer (source : Nat) (source_offset : Nat) (destination : Nat)
      (destination_offset : Nat) (size : Nat)
  | copyBufferToTexture (source : ImageCopyBuffer) (destination : ImageCopyTexture)
      (copy_size : Extent3d)
  | copyTextureToBuffer (source : ImageCopyTexture) (destination : ImageCopyBuffer)
      (copy_size : Extent3d)
  | copyTextureToTexture (source : ImageCopyTexture) (destination : ImageCopyTexture)
      (copy_size : Extent3d)
  | pushDebugGroup (label : String)
  | popDebugGroup
  | insertDebugMarker (label : String)
  | writeTimestamp (query_set : Nat) (query_index : Nat)
  | resolveQuerySet (query_set : Nat) (first_query : Nat) (query_count : Nat)
      (destination : Nat) (destination_offset : Nat)
deriving DecidableEq, Repr

/-- Backend-side state of one native command encoder. -/
structure BackendEncoder where
  commands : List BackendCommand
  openPass : Bool
  debugDepth : Nat
deriving DecidableEq, Repr

/-- Modelled from the spec: the graphics backend (§6), holding its native
encoders and finished command buffers, with a fresh-id counter. -/
structure Backend where
  nextId : Nat
  encoders : List (Nat × BackendEncoder)
  commandBuffers : List (Nat × List BackendCommand)
deriving DecidableEq, Repr

/-- Association-list lookup on backend encoders. -/
def findBackendEncoder : List (Nat × BackendEncoder) → Nat → Option BackendEncoder
  | [], _ => none
  | (k, e) :: rest, id => if k = id then some e else findBackendEncoder rest id

/-- Replace the state of one backend encoder. -/
def setBackendEncoder : List (Nat × BackendEncoder) → Nat → BackendEncoder →
    List (Nat × BackendEncoder)
  | [], _, _ => []
  | (k, e) :: rest, id, e' =>
    if k = id then (k, e') :: setBackendEncoder rest id e'
    else (k, e) :: setBackendEncoder rest id e'

/-- Remove a backend encoder (consumed on finish). -/
def removeBackendEncoder : List (Nat × BackendEncoder) → Nat →
    List (Nat × BackendEncoder)
  | [], _ => []
  | (k, e) :: rest, id =>
    if k = id then removeBackendEncoder rest id
    else (k, e) :: removeBackendEncoder rest id

/-- Modelled from the spec: `device_create_command_encoder` (§6) — a fresh
native encoder with an empty command stream; errors are backend device
failures, never produced in this model. -/
def Backend.deviceCreateCommandEncoder (b : Backend) (_device : Nat)
    (_label : Option String) : Nat × Option WebGpuError × Backend :=
  (b.nextId, none,
    ⟨b.nextId + 1, (b.nextId, ⟨[], false, 0⟩) :: b.encoders, b.commandBuffers⟩)

/-- Modelled from the spec: recording a command on a native encoder (§6) —
appends to the encoder's stream; an unknown native encoder is an opaque
backend failure. -/
def Backend.record (b : Backend) (enc : Nat) (c : BackendCommand) :
    Option WebGpuError × Backend :=
  match findBackendEncoder b.encoders enc with
  | some be =>
    (none,
      ⟨b.nextId,
        setBackendEncoder b.encoders enc ⟨be.commands ++ [c], be.openPass, be.debugDepth⟩,
        b.commandBuffers⟩)
  | none => (some .backendFailure, b)

/-- Modelled from the spec: `pop_debug_group` is a delegated check — the
backend reports an unbalanced pop (§4.3). -/
def Backend.popDebugGroup (b : Backend) (enc : Nat) :
    Option WebGpuError × Backend :=
  match findBackendEncoder b.encoders enc with
  | some be =>
    if be.debugDepth = 0 then (some .encoderOperationFailed, b)
    else
      (none,
        ⟨b.nextId,
          setBackendEncoder b.encoders enc
            ⟨be.commands ++ [.popDebugGroup], be.openPass, be.debugDepth - 1⟩,
          b.commandBuffers⟩)
  | none => (some .backendFailure, b)

/-- Modelled from the spec: `push_debug_group` records and opens a group. -/
def Backend.pushDebugGroup (b : Backend) (enc : Nat) (label : String) :
    Option WebGpuError × Backend :=
  match findBackendEncoder b.encoders enc with
  | some be =>
    (none,
      ⟨b.nextId,
        setBackendEncoder b.encoders enc
          ⟨be.commands ++ [.pushDebugGroup label], be.openPass, be.debugDepth + 1⟩,
        b.commandBuffers⟩)
  | none => (some .backendFailure, b)

/-- Modelled from the spec: `command_encoder_finish` (§6, §4.4) — always
yields a (fresh) command-buffer id together with an optional error, as the
`gfx_put!` consumer expects; an encoder with a still-open pass is a
backend-reported ordering violation (`EncoderOperationFailed`). -/
def Backend.commandEncoderFinish (b : Backend) (enc : Nat)
    (_label : Option String) : Nat × Option WebGpuError × Backend :=
  match findBackendEncoder b.encoders enc with
  | some be =>
    (b.nextId,
      if be.openPass then some .encoderOperationFailed else none,
      ⟨b.nextId + 1, removeBackendEncoder b.encoders enc,
        (b.nextId, be.commands) :: b.commandBuffers⟩)
  | none =>
    (b.nextId, some .backendFailure,
      ⟨b.nextId + 1, b.encoders, b.commandBuffers⟩)

/-! ## Op state and result -/

/-- The per-session op state: the resource table plus the backend instance
(the spec's explicit context object, §9). -/
structure OpState where
  table : ResourceTable
  backend : Backend
deriving DecidableEq, Repr

/-- `WebGpuResult`: a success payload carrying an optional handle and an
optional in-band backend error. -/
structure WebGpuResult where
  rid : Option Nat
  err : Option WebGpuError
deriving DecidableEq, Repr

/-- `WebGpuResult::rid`. -/
def WebGpuResult.mkRid (r : Nat) : WebGpuResult := ⟨some r, none⟩

/-- `WebGpuResult::maybe_err`. -/
def WebGpuResult.maybeErr (e : Option WebGpuError) : WebGpuResult := ⟨none, e⟩

/-- `WebGpuResult::rid_err`. -/
def WebGpuResult.ridErr (r : Nat) (e : Option WebGpuError) : WebGpuResult :=
  ⟨some r, e⟩

/-! ## Descriptor translation (`op_webgpu_command_encoder_begin_render_pass`
loop body and depth/stencil branch, `command_encoder.rs:124-204`) -/

/-- One iteration of the color-attachment loop
(`command_encoder.rs:124-164`): resolve the view and optional resolve target,
then build the backend attachment with the load/store channel. -/
def translateColorAttachment (t : ResourceTable)
    (ca : GpuRenderPassColorAttachment) :
    Except WebGpuError RenderPassColorAttachment :=
  match t.getTextureViewId ca.view with
  | .error e => .error e
  | .ok view =>
    match
      (match ca.resolve_target with
        | none => Except.ok none
        | some rid =>
          match t.getTextureViewId rid with
          | .error e => .error e
          | .ok v => .ok (some v)) with
    | .error e => .error e
    | .ok resolve_target =>
      .ok
        { view := view
          resolve_target := resolve_target
          channel :=
            match ca.load_op with
            | .Load =>
              { load_op := .Load
                store_op := ca.store_op.toStoreOp
                clear_value := Color.default
                read_only := false }
            | .Clear color =>
              { load_op := .Clear
                store_op := ca.store_op.toStoreOp
                clear_value := ⟨color.r, color.g, color.b, color.a⟩
                read_only := false } }

/-- The color-attachment loop (`command_encoder.rs:122-164`): translate in
order, aborting on the first failure. -/
def translateColorAttachments (t : ResourceTable) :
    List GpuRenderPassColorAttachment →
    Except WebGpuError (List RenderPassColorAttachment)
  | [] => .ok []
  | ca :: rest =>
    match translateColorAttachment t ca with
    | .error e => .error e
    | .ok a =>
      match translateColorAttachments t rest with
      | .error e => .error e
      | .ok as_tail => .ok (a :: as_tail)

/-- The depth/stencil branch (`command_encoder.rs:168-204`). -/
def translateDepthStencilAttachment (t : ResourceTable)
    (a : GpuRenderPassDepthStencilAttachment) :
    Except WebGpuError RenderPassDepthStencilAttachment :=
  match t.getTextureViewId a.view with
  | .error e => .error e
  | .ok view =>
    .ok
      { view := view
        depth :=
          match a.depth_load_op with
          | .Load =>
            { load_op := .Load
              store_op := a.depth_store_op.toStoreOp
              clear_value := F32.zero
              read_only := a.depth_read_only }
          | .Clear value =>
            { load_op := .Clear
              store_op := a.depth_store_op.toStoreOp
              clear_value := value
              read_only := a.depth_read_only }
        stencil :=
          match a.stencil_load_op with
          | .Load =>
            { load_op := .Load
              store_op := a.stencil_store_op.toStoreOp
              clear_value := 0
              read_only := a.stencil_read_only }
          | .Clear value =>
            { load_op := .Clear
              store_op := a.stencil_store_op.toStoreOp
              clear_value := value
              read_only := a.stencil_read_only } }

/-- The `source` record of `op_webgpu_command_encoder_copy_buffer_to_texture`
(`command_encoder.rs:357-364`): a resolved buffer id plus the layout, with
`NonZeroU32::new(x.unwrap_or(0))` on the optional row fields. -/
def mkImageCopyBuffer (bufferId : Nat) (w : GpuImageCopyBuffer) :
    ImageCopyBuffer :=
  { buffer := bufferId
    layout :=
      { offset := w.offset
        bytes_per_row := nonZeroU32New (w.bytes_per_row.getD 0)
        rows_per_image := nonZeroU32New (w.rows_per_image.getD 0) } }

/-- The texture-side record of the copy ops (`command_encoder.rs:365-370`). -/
def mkImageCopyTexture (textureId : Nat) (w : GpuImageCopyTexture) :
    ImageCopyTexture :=
  { texture := textureId
    mip_level := w.mip_level
    origin := w.origin.toOrigin3d
    aspect := w.aspect.toTextureAspect }

/-! ## Op argument structs (from `command_encoder.rs`) -/

/-- `CreateCommandEncoderArgs` (`command_encoder.rs:29-35`); the
`_measure_execution_time` field is deserialized but unused ("not yet
implemented"). -/
structure CreateCommandEncoderArgs where
  device_rid : Nat
  label : Option String
  _measure_execution_time : Option Bool
deriving DecidableEq, Repr

/-- `CommandEncoderBeginRenderPassArgs` (`command_encoder.rs:103-111`); the
`_occlusion_query_set` field is deserialized but unused ("not yet
implemented"). -/
structure CommandEncoderBeginRenderPassArgs where
  command_encoder_rid : Nat
  label : Option String
  color_attachments : List GpuRenderPassColorAttachment
  depth_stencil_attachment : Option GpuRenderPassDepthStencilAttachment
  _occlusion_query_set : Option Nat
deriving DecidableEq, Repr

/-- `CommandEncoderBeginComputePassArgs` (`command_encoder.rs:223-228`). -/
structure CommandEncoderBeginComputePassArgs where
  command_encoder_rid : Nat
  label : Option String
deriving DecidableEq, Repr

/-- `CommandEncoderCopyBufferToBufferArgs` (`command_encoder.rs:255-264`). -/
structure CommandEncoderCopyBufferToBufferArgs where
  command_encoder_rid : Nat
  source : Nat
  source_offset : Nat
  destination : Nat
  destination_offset : Nat
  size : Nat
deriving DecidableEq, Repr

/-- `CommandEncoderCopyBufferToTextureArgs` (`command_encoder.rs:331-338`). -/
structure CommandEncoderCopyBufferToTextureArgs where
  command_encoder_rid : Nat
  source : GpuImageCopyBuffer
  destination : GpuImageCopyTexture
  copy_size : GpuExtent3D
deriving DecidableEq, Repr

/-- `CommandEncoderCopyTextureToBufferArgs` (`command_encoder.rs:379-386`). -/
structure CommandEncoderCopyTextureToBufferArgs where
  command_encoder_rid : Nat
  source : GpuImageCopyTexture
  destination : GpuImageCopyBuffer
  copy_size : GpuExtent3D
deriving DecidableEq, Repr

/-- `CommandEncoderCopyTextureToTextureArgs` (`command_encoder.rs:427-434`). -/
structure CommandEncoderCopyTextureToTextureArgs where
  command_encoder_rid : Nat
  source : GpuImageCopyTexture
  destination : GpuImageCopyTexture
  copy_size : GpuExtent3D
deriving DecidableEq, Repr

/-- `CommandEncoderPushDebugGroupArgs` (`command_encoder.rs:473-478`). -/
structure CommandEncoderPushDebugGroupArgs where
  command_encoder_rid : Nat
  group_label : String
deriving DecidableEq, Repr

/-- `CommandEncoderPopDebugGroupArgs` (`command_encoder.rs:495-499`). -/
structure CommandEncoderPopDebugGroupArgs where
  command_encoder_rid : Nat
deriving DecidableEq, Repr

/-- `CommandEncoderInsertDebugMarkerArgs` (`command_encoder.rs:515-520`). -/
structure CommandEncoderInsertDebugMarkerArgs where
  command_encoder_rid : Nat
  marker_label : String
deriving DecidableEq, Repr

/-- `CommandEncoderWriteTimestampArgs` (`command_encoder.rs:539-545`). -/
structure CommandEncoderWriteTimestampArgs where
  command_encoder_rid : Nat
  query_set : Nat
  query_index : Nat
deriving DecidableEq, Repr

/-- `CommandEncoderResolveQuerySetArgs` (`command_encoder.rs:568-577`). -/
structure CommandEncoderResolveQuerySetArgs where
  command_encoder_rid : Nat
  query_set : Nat
  first_query : Nat
  query_count : Nat
  destination : Nat
  destination_offset : Nat
deriving DecidableEq, Repr

/-- `CommandEncoderFinishArgs` (`command_encoder.rs:606-611`). -/
structure CommandEncoderFinishArgs where
  command_encoder_rid : Nat
  label : Option String
deriving DecidableEq, Repr

/-! ## The ops (`command_encoder.rs`)

Each op takes the op state by mutable reference in Rust and returns
`Result<WebGpuResult, AnyError>`; here each is a function
`OpState → args → Except WebGpuError WebGpuResult × OpState` returning the
(possibly unchanged) state alongside the result.  Resource-table failures
abort with `.error`; backend-reported errors travel in-band inside the
`WebGpuResult` (`gfx_ok!` / `gfx_put!`). -/

/-- `op_webgpu_create_command_encoder` (`command_encoder.rs:37-57`). -/
def op_webgpu_create_command_encoder (s : OpState)
    (args : CreateCommandEncoderArgs) :
    Except WebGpuError WebGpuResult × OpState :=
  match s.table.getDeviceId args.device_rid with
  | .error e => (.error e, s)
  | .ok device =>
    let (encId, maybeErr, backend) :=
      s.backend.deviceCreateCommandEncoder device args.label
    let (rid, table) := s.table.add (.commandEncoder encId)
    (.ok (WebGpuResult.ridErr rid maybeErr), ⟨table, backend⟩)

/-- `op_webgpu_command_encoder_begin_render_pass`
(`command_encoder.rs:113-221`): resolve the encoder, translate all
attachments, construct the render-pass recorder bound to the encoder, and
register it as a new table entry. -/
def op_webgpu_command_encoder_begin_render_pass (s : OpState)
    (args : CommandEncoderBeginRenderPassArgs) :
    Except WebGpuError WebGpuResult × OpState :=
  match s.table.getCommandEncoderId args.command_encoder_rid with
  | .error e => (.error e, s)
  | .ok command_encoder =>
    match translateColorAttachments s.table args.color_attachments with
    | .error e => (.error e, s)
    | .ok color_attachments =>
      match
        (match args.depth_stencil_attachment with
          | none => Except.ok none
          | some a =>
            match translateDepthStencilAttachment s.table a with
            | .error e => .error e
            | .ok d => .ok (some d)) with
      | .error e => (.error e, s)
      | .ok depth_stencil_attachment =>
        let descriptor : RenderPassDescriptor :=
          { label := args.label
            color_attachments := color_attachments
            depth_stencil_attachment := depth_stencil_attachment }
        let (rid, table) :=
          s.table.add (.renderPass command_encoder descriptor)
        (.ok (WebGpuResult.mkRid rid), ⟨table, s.backend⟩)

/-- `op_webgpu_command_encoder_begin_compute_pass`
(`command_encoder.rs:230-253`). -/
def op_webgpu_command_encoder_begin_compute_pass (s : OpState)
    (args : CommandEncoderBeginComputePassArgs) :
    Except WebGpuError WebGpuResult × OpState :=
  match s.table.getCommandEncoderId args.command_encoder_rid with
  | .error e => (.error e, s)
  | .ok command_encoder =>
    let (rid, table) := s.table.add (.computePass command_encoder args.label)
    (.ok (WebGpuResult.mkRid rid), ⟨table, s.backend⟩)

/-- `op_webgpu_command_encoder_copy_buffer_to_buffer`
(`command_encoder.rs:266-293`). -/
def op_webgpu_command_encoder_copy_buffer_to_buffer (s : OpState)
    (args : CommandEncoderCopyBufferToBufferArgs) :
    Except WebGpuError WebGpuResult × OpState :=
  match s.table.getCommandEncoderId args.command_encoder_rid with
  | .error e => (.error e, s)
  | .ok command_encoder =>
    match s.table.getBufferId args.source with
    | .error e => (.error e, s)
    | .ok source_buffer =>
      match s.table.getBufferId args.destination with
      | .error e => (.error e, s)
      | .ok destination_buffer =>
        let (maybeErr, backend) :=
          s.backend.record command_encoder
            (.copyBufferToBuffer source_buffer args.source_offset
              destination_buffer args.destination_offset args.size)
        (.ok (WebGpuResult.maybeErr maybeErr), ⟨s.table, backend⟩)

/-- `op_webgpu_command_encoder_copy_buffer_to_texture`
(`command_encoder.rs:340-377`). -/
def op_webgpu_command_encoder_copy_buffer_to_texture (s : OpState)
    (args : CommandEncoderCopyBufferToTextureArgs) :
    Except WebGpuError WebGpuResult × OpState :=
  match s.table.getCommandEncoderId args.command_encoder_rid with
  | .error e => (.error e, s)
  | .ok command_encoder =>
    match s.table.getBufferId args.source.buffer with
    | .error e => (.error e, s)
    | .ok source_buffer =>
      match s.table.getTextureId args.destination.texture with
      | .error e => (.error e, s)
      | .ok destination_texture =>
        let source := mkImageCopyBuffer source_buffer args.source
        let destination := mkImageCopyTexture destination_texture args.destination
        let (maybeErr, backend) :=
          s.backend.record command_encoder
            (.copyBufferToTexture source destination args.copy_size.toExtent3d)
        (.ok (WebGpuResult.maybeErr maybeErr), ⟨s.table, backend⟩)

/-- `op_webgpu_command_encoder_copy_texture_to_buffer`
(`command_encoder.rs:388-425`). -/
def op_webgpu_command_encoder_copy_texture_to_buffer (s : OpState)
    (args : CommandEncoderCopyTextureToBufferArgs) :
    Except WebGpuError WebGpuResult × OpState :=
  match s.table.getCommandEncoderId args.command_encoder_rid with
  | .error e => (.error e, s)
  | .ok command_encoder =>
    match s.table.getTextureId args.source.texture with
    | .error e => (.error e, s)
    | .ok source_texture =>
      match s.table.getBufferId args.destination.buffer with
      | .error e => (.error e, s)
      | .ok destination_buffer =>
        let source := mkImageCopyTexture source_texture args.source
        let destination := mkImageCopyBuffer destination_buffer args.destination
        let (maybeErr, backend) :=
          s.backend.record command_encoder
            (.copyTextureToBuffer source destination args.copy_size.toExtent3d)
        (.ok (WebGpuResult.maybeErr maybeErr), ⟨s.table, backend⟩)

/-- `op_webgpu_command_encoder_copy_texture_to_texture`
(`command_encoder.rs:436-471`). -/
def op_webgpu_command_encoder_copy_texture_to_texture (s : OpState)
    (args : CommandEncoderCopyTextureToTextureArgs) :
    Except WebGpuError WebGpuResult × OpState :=
  match s.table.getCommandEncoderId args.command_encoder_rid with
  | .error e => (.error e, s)
  | .ok command_encoder =>
    match s.table.getTextureId args.source.texture with
    | .error e => (.error e, s)
    | .ok source_texture =>
      match s.table.getTextureId args.destination.texture with
      | .error e => (.error e, s)
      | .ok destination_texture =>
        let source := mkImageCopyTexture source_texture args.source
        let destination := mkImageCopyTexture destination_texture args.destination
        let (maybeErr, backend) :=
          s.backend.record command_encoder
            (.copyTextureToTexture source destination args.copy_size.toExtent3d)
        (.ok (WebGpuResult.maybeErr maybeErr), ⟨s.table, backend⟩)

/-- `op_webgpu_command_encoder_push_debug_group`
(`command_encoder.rs:480-493`). -/
def op_webgpu_command_encoder_push_debug_group (s : OpState)
    (args : CommandEncoderPushDebugGroupArgs) :
    Except WebGpuError WebGpuResult × OpState :=
  match s.table.getCommandEncoderId args.command_encoder_rid with
  | .error e => (.error e, s)
  | .ok command_encoder =>
    let (maybeErr, backend) :=
      s.backend.pushDebugGroup command_encoder args.group_label
    (.ok (WebGpuResult.maybeErr maybeErr), ⟨s.table, backend⟩)

/-- `op_webgpu_command_encoder_pop_debug_group`
(`command_encoder.rs:501-513`). -/
def op_webgpu_command_encoder_pop_debug_group (s : OpState)
    (args : CommandEncoderPopDebugGroupArgs) :
    Except WebGpuError WebGpuResult × OpState :=
  match s.table.getCommandEncoderId args.command_encoder_rid with
  | .error e => (.error e, s)
  | .ok command_encoder =>
    let (maybeErr, backend) := s.backend.popDebugGroup command_encoder
    (.ok (WebGpuResult.maybeErr maybeErr), ⟨s.table, backend⟩)

/-- `op_webgpu_command_encoder_insert_debug_marker`
(`command_encoder.rs:522-537`). -/
def op_webgpu_command_encoder_insert_debug_marker (s : OpState)
    (args : CommandEncoderInsertDebugMarkerArgs) :
    Except WebGpuError WebGpuResult × OpState :=
  match s.table.getCommandEncoderId args.command_encoder_rid with
  | .error e => (.error e, s)
  | .ok command_encoder =>
    let (maybeErr, backend) :=
      s.backend.record command_encoder (.insertDebugMarker args.marker_label)
    (.ok (WebGpuResult.maybeErr maybeErr), ⟨s.table, backend⟩)

/-- `op_webgpu_command_encoder_write_timestamp`
(`command_encoder.rs:547-566`). -/
def op_webgpu_command_encoder_write_timestamp (s : OpState)
    (args : CommandEncoderWriteTimestampArgs) :
    Except WebGpuError WebGpuResult × OpState :=
  match s.table.getCommandEncoderId args.command_encoder_rid with
  | .error e => (.error e, s)
  | .ok command_encoder =>
    match s.table.getQuerySetId args.query_set with
    | .error e => (.error e, s)
    | .ok query_set =>
      let (maybeErr, backend) :=
        s.backend.record command_encoder
          (.writeTimestamp query_set args.query_index)
      (.ok (WebGpuResult.maybeErr maybeErr), ⟨s.table, backend⟩)

/-- `op_webgpu_command_encoder_resolve_query_set`
(`command_encoder.rs:579-604`). -/
def op_webgpu_command_encoder_resolve_query_set (s : OpState)
    (args : CommandEncoderResolveQuerySetArgs) :
    Except WebGpuError WebGpuResult × OpState :=
  match s.table.getCommandEncoderId args.command_encoder_rid with
  | .error e => (.error e, s)
  | .ok command_encoder =>
    match s.table.getQuerySetId args.query_set with
    | .error e => (.error e, s)
    | .ok query_set =>
      match s.table.getBufferId args.destination with
      | .error e => (.error e, s)
      | .ok destination =>
        let (maybeErr, backend) :=
          s.backend.record command_encoder
            (.resolveQuerySet query_set args.first_query args.query_count
              destination args.destination_offset)
        (.ok (WebGpuResult.maybeErr maybeErr), ⟨s.table, backend⟩)

/-- `op_webgpu_command_encoder_finish` (`command_encoder.rs:613-632`):
destructively takes the encoder entry first, then converts it into a command
buffer via the backend and registers the result (`gfx_put!`), carrying any
backend error in-band. -/
def op_webgpu_command_encoder_finish (s : OpState)
    (args : CommandEncoderFinishArgs) :
    Except WebGpuError WebGpuResult × OpState :=
  match s.table.takeCommandEncoderId args.command_encoder_rid with
  | .error e => (.error e, s)
  | .ok (command_encoder, table) =>
    let (bufId, maybeErr, backend) :=
      s.backend.commandEncoderFinish command_encoder args.label
    let (rid, table') := table.add (.commandBuffer bufId)
    (.ok (WebGpuResult.ridErr rid maybeErr), ⟨table', backend⟩)

/-! ## Encoder-op dispatcher

A sum over every op of `command_encoder.rs` that is invoked with a command
encoder handle, used to quantify over "any encoder operation". -/

/-- One encoder operation invocation (op plus its arguments). -/
inductive EncoderOp where
  | beginRenderPass (args : CommandEncoderBeginRenderPassArgs)
  | beginComputePass (args : CommandEncoderBeginComputePassArgs)
  | copyBufferToBuffer (args : CommandEncoderCopyBufferToBufferArgs)
  | copyBufferToTexture (args : CommandEncoderCopyBufferToTextureArgs)
  | copyTextureToBuffer (args : CommandEncoderCopyTextureToBufferArgs)
  | copyTextureToTexture (args : CommandEncoderCopyTextureToTextureArgs)
  | pushDebugGroup (args : CommandEncoderPushDebugGroupArgs)
  | popDebugGroup (args : CommandEncoderPopDebugGroupArgs)
  | insertDebugMarker (args : CommandEncoderInsertDebugMarkerArgs)
  | writeTimestamp (args : CommandEncoderWriteTimestampArgs)
  | resolveQuerySet (args : CommandEncoderResolveQuerySetArgs)
  | finish (args : CommandEncoderFinishArgs)
deriving DecidableEq, Repr

/-- The encoder handle an operation is invoked with. -/
def EncoderOp.encoderRid : EncoderOp → Nat
  | .beginRenderPass a => a.command_encoder_rid
  | .beginComputePass a => a.command_encoder_rid
  | .copyBufferToBuffer a => a.command_encoder_rid
  | .copyBufferToTexture a => a.command_encoder_rid
  | .copyTextureToBuffer a => a.command_encoder_rid
  | .copyTextureToTexture a => a.command_encoder_rid
  | .pushDebugGroup a => a.command_encoder_rid
  | .popDebugGroup a => a.command_encoder_rid
  | .insertDebugMarker a => a.command_encoder_rid
  | .writeTimestamp a => a.command_encoder_rid
  | .resolveQuerySet a => a.command_encoder_rid
  | .finish a => a.command_encoder_rid

/-- Dispatch an encoder operation to its op function. -/
def runEncoderOp (op : EncoderOp) (s : OpState) :
    Except WebGpuError WebGpuResult × OpState :=
  match op with
  | .beginRenderPass a => op_webgpu_command_encoder_begin_render_pass s a
  | .beginComputePass a => op_webgpu_command_encoder_begin_compute_pass s a
  | .copyBufferToBuffer a => op_webgpu_command_encoder_copy_buffer_to_buffer s a
  | .copyBufferToTexture a => op_webgpu_command_encoder_copy_buffer_to_texture s a
  | .copyTextureToBuffer a => op_webgpu_command_encoder_copy_texture_to_buffer s a
  | .copyTextureToTexture a => op_webgpu_command_encoder_copy_texture_to_texture s a
  | .pushDebugGroup a => op_webgpu_command_encoder_push_debug_group s a
  | .popDebugGroup a => op_webgpu_command_encoder_pop_debug_group s a
  | .insertDebugMarker a => op_webgpu_command_encoder_insert_debug_marker s a
  | .writeTimestamp a => op_webgpu_command_encoder_write_timestamp s a
  | .resolveQuerySet a => op_webgpu_command_encoder_resolve_query_set s a
  | .finish a => op_webgpu_command_encoder_finish s a

/-- Run a sequence of encoder operations, threading the state. -/
def runEncoderOps (ops : List EncoderOp) (s : OpState) : OpState :=
  match ops with
  | [] => s
  | op :: rest => runEncoderOps rest (runEncoderOp op s).2

/-! ## Table mutations

Every table change any op performs is an `add` or an erase; this small
mutation language lets "after any sequence of subsequent operations" be
stated once. -/

/-- A single resource-table mutation. -/
inductive TableMut where
  | ins (e : ResourceEntry)
  | del (rid : Nat)
deriving DecidableEq, Repr

/-- Apply one mutation. -/
def applyMut (t : ResourceTable) : TableMut → ResourceTable
  | .ins e => (t.add e).2
  | .del rid => ⟨t.nextRid, eraseEntry t.entries rid⟩

/-- Apply a sequence of mutations, left to right. -/
def applyMuts (t : ResourceTable) : List TableMut → ResourceTable
  | [] => t
  | m :: ms => applyMuts (applyMut t m) ms

/-! ## Sample states (used by the witness theorems) -/

/-- A populated table: encoder handle 1, buffers 2 and 3, texture 4,
texture view 5, query set 6, device 7. -/
def sampleTable : ResourceTable :=
  ⟨8,
    [(1, .commandEncoder 10), (2, .buffer 11), (3, .buffer 12),
     (4, .texture 13), (5, .textureView 14), (6, .querySet 15),
     (7, .device 16)]⟩

/-- A backend with native encoder 10 live (no open pass). -/
def sampleBackend : Backend :=
  ⟨17, [(10, ⟨[], false, 0⟩)], []⟩

/-- The sample op state. -/
def sampleState : OpState := ⟨sampleTable, sampleBackend⟩

/-- A backend in which native encoder 10 still has an open pass, so that
finishing it is a backend-reported failure. -/
def sampleBackendOpenPass : Backend :=
  ⟨17, [(10, ⟨[], true, 0⟩)], []⟩

/-- The sample op state with an open pass on the backend encoder. -/
def sampleStateOpenPass : OpState := ⟨sampleTable, sampleBackendOpenPass⟩

/-- A sample wire color attachment using view 5, clearing to an explicit
color. -/
def sampleColorAttachment : GpuRenderPassColorAttachment :=
  { view := 5
    resolve_target := none
    load_op := .Clear ⟨⟨0x3FF0000000000000⟩, ⟨0⟩, ⟨0⟩, ⟨0x3FF0000000000000⟩⟩
    store_op := .Store }

/-- A sample wire depth/stencil attachment using view 5, loading both
channels. -/
def sampleDepthStencilAttachment : GpuRenderPassDepthStencilAttachment :=
  { view := 5
    depth_load_op := .Load
    depth_store_op := .Store
    depth_read_only := false
    stencil_load_op := .Load
    stencil_store_op := .Discard
    stencil_read_only := true }

/-- `sampleTable` after destructively taking encoder handle 1. -/
def sampleTableTaken : ResourceTable :=
  ⟨8,
    [(2, .buffer 11), (3, .buffer 12), (4, .texture 13), (5, .textureView 14),
     (6, .querySet 15), (7, .device 16)]⟩

/-- The state `op_webgpu_command_encoder_finish sampleState ⟨1, none⟩`
produces: encoder entry gone, command-buffer entry at handle 8. -/
def sampleFinishedState : OpState :=
  ⟨⟨9,
      [(8, .commandBuffer 17), (2, .buffer 11), (3, .buffer 12),
       (4, .texture 13), (5, .textureView 14), (6, .querySet 15),
       (7, .device 16)]⟩,
    ⟨18, [], [(17, [])]⟩⟩

/-- A second sample wire color attachment, with `loadOp = Load`. -/
def sampleLoadAttachment : GpuRenderPassColorAttachment :=
  { view := 5, resolve_target := none, load_op := .Load, store_op := .Discard }

/-- The backend record `translateColorAttachment` produces for
`sampleColorAttachment` against `sampleTable`. -/
def sampleColorResult : RenderPassColorAttachment :=
  { view := 14
    resolve_target := none
    channel :=
      ⟨.Clear, .Store,
        ⟨⟨0x3FF0000000000000⟩, ⟨0⟩, ⟨0⟩, ⟨0x3FF0000000000000⟩⟩, false⟩ }

/-- The backend record `translateColorAttachment` produces for
`sampleLoadAttachment` against `sampleTable`. -/
def sampleLoadResult : RenderPassColorAttachment :=
  { view := 14
    resolve_target := none
    channel := ⟨.Load, .Discard, Color.default, false⟩ }

/-- The backend record `translateDepthStencilAttachment` produces for
`sampleDepthStencilAttachment` against `sampleTable`. -/
def sampleDepthStencilResult : RenderPassDepthStencilAttachment :=
  { view := 14
    depth := ⟨.Load, .Store, F32.zero, false⟩
    stencil := ⟨.Load, .Discard, 0, true⟩ }

/-- A handle that is dead in a table: it does not resolve, and it sits below
the fresh-handle counter, so no later insertion can revive it. -/
def Dead (t : ResourceTable) (h : Nat) : Prop :=
  t.find h = none ∧ h < t.nextRid

instance (t : ResourceTable) (h : Nat) : Decidable (Dead t h) := by
  unfold Dead; infer_instance

instance (t : ResourceTable) : Decidable t.WF := by
  unfold ResourceTable.WF; infer_instance

/-- The pure translation phase of
`op_webgpu_command_encoder_copy_buffer_to_texture`: everything the op
computes before touching the backend, as a function of the table and the
wire arguments alone. -/
def copyBufferToTextureRecords (t : ResourceTable)
    (args : CommandEncoderCopyBufferToTextureArgs) :
    Except WebGpuError (Nat × ImageCopyBuffer × ImageCopyTexture × Extent3d) :=
  match t.getCommandEncoderId args.command_encoder_rid with
  | .error e => .error e
  | .ok command_encoder =>
    match t.getBufferId args.source.buffer with
    | .error e => .error e
    | .ok source_buffer =>
      match t.getTextureId args.destination.texture with
      | .error e => .error e
      | .ok destination_texture =>
        .ok (command_encoder, mkImageCopyBuffer source_buffer args.source,
          mkImageCopyTexture destination_texture args.destination,
          args.copy_size.toExtent3d)

end DenoWebGpu

namespace DenoWebGpu

/-! ## Helper lemmas: the slot list and the table -/

theorem findEntry_eraseEntry_self (l : List (Nat × ResourceEntry)) (rid : Nat) :
    findEntry (eraseEntry l rid) rid = none := by
  induction l with
  | nil => simp [eraseEntry, findEntry]
  | cons p rest ih =>
    obtain ⟨k, e⟩ := p
    by_cases hk : k = rid
    · simp [eraseEntry, hk, ih]
    · simp [eraseEntry, findEntry, hk, ih]

theorem findEntry_eraseEntry_none (l : List (Nat × ResourceEntry))
    (rid h : Nat) (hn : findEntry l h = none) :
    findEntry (eraseEntry l rid) h = none := by
  induction l with
  | nil => simpa [eraseEntry] using hn
  | cons p rest ih =>
    obtain ⟨k, e⟩ := p
    by_cases hk2 : k = h
    · rw [findEntry, if_pos hk2] at hn; cases hn
    · rw [findEntry, if_neg hk2] at hn
      by_cases hk : k = rid
      · rw [eraseEntry, if_pos hk]; exact ih hn
      · rw [eraseEntry, if_neg hk, findEntry, if_neg hk2]; exact ih hn

theorem findEntry_mem (l : List (Nat × ResourceEntry)) (h : Nat)
    (e : ResourceEntry) (hf : findEntry l h = some e) : (h, e) ∈ l := by
  induction l with
  | nil => cases hf
  | cons p rest ih =>
    obtain ⟨k, e'⟩ := p
    by_cases hk : k = h
    · rw [findEntry, if_pos hk] at hf
      injection hf with hf
      subst hk; subst hf
      exact List.mem_cons_self _ _
    · rw [findEntry, if_neg hk] at hf
      exact List.mem_cons_of_mem _ (ih hf)

theorem dead_applyMut (t : ResourceTable) (h : Nat) (m : TableMut)
    (hd : Dead t h) : Dead (applyMut t m) h := by
  obtain ⟨hfind, hlt⟩ := hd
  cases m with
  | ins e =>
    refine ⟨?_, ?_⟩
    · show findEntry ((t.nextRid, e) :: t.entries) h = none
      rw [findEntry, if_neg (by omega)]
      exact hfind
    · show h < t.nextRid + 1
      omega
  | del rid =>
    exact ⟨findEntry_eraseEntry_none _ _ _ hfind, hlt⟩

theorem dead_applyMuts (t : ResourceTable) (h : Nat) (ms : List TableMut)
    (hd : Dead t h) : Dead (applyMuts t ms) h := by
  induction ms generalizing t with
  | nil => exact hd
  | cons m ms ih => exact ih _ (dead_applyMut _ _ _ hd)

/-! ## Helper lemmas: getters fail only with InvalidHandle -/

theorem getCommandEncoderId_error (t : ResourceTable) (rid : Nat)
    (e : WebGpuError) (h : t.getCommandEncoderId rid = .error e) :
    e = .invalidHandle := by
  unfold ResourceTable.getCommandEncoderId at h
  split at h <;> simp_all

theorem getBufferId_error (t : ResourceTable) (rid : Nat)
    (e : WebGpuError) (h : t.getBufferId rid = .error e) :
    e = .invalidHandle := by
  unfold ResourceTable.getBufferId at h
  split at h <;> simp_all

theorem getTextureId_error (t : ResourceTable) (rid : Nat)
    (e : WebGpuError) (h : t.getTextureId rid = .error e) :
    e = .invalidHandle := by
  unfold ResourceTable.getTextureId at h
  split at h <;> simp_all

theorem getTextureViewId_error (t : ResourceTable) (rid : Nat)
    (e : WebGpuError) (h : t.getTextureViewId rid = .error e) :
    e = .invalidHandle := by
  unfold ResourceTable.getTextureViewId at h
  split at h <;> simp_all

theorem getQuerySetId_error (t : ResourceTable) (rid : Nat)
    (e : WebGpuError) (h : t.getQuerySetId rid = .error e) :
    e = .invalidHandle := by
  unfold ResourceTable.getQuerySetId at h
  split at h <;> simp_all

theorem getDeviceId_error (t : ResourceTable) (rid : Nat)
    (e : WebGpuError) (h : t.getDeviceId rid = .error e) :
    e = .invalidHandle := by
  unfold ResourceTable.getDeviceId at h
  split at h <;> simp_all

theorem takeCommandEncoderId_error (t : ResourceTable) (rid : Nat)
    (e : WebGpuError) (h : t.takeCommandEncoderId rid = .error e) :
    e = .invalidHandle := by
  unfold ResourceTable.takeCommandEncoderId at h
  split at h <;> simp_all

/-! ## Helper lemmas: getters on a missing handle -/

theorem getCommandEncoderId_of_find_none (t : ResourceTable) (rid : Nat)
    (hf : t.find rid = none) :
    t.getCommandEncoderId rid = .error .invalidHandle := by
  unfold ResourceTable.getCommandEncoderId
  rw [hf]

theorem getTextureViewId_of_find_none (t : ResourceTable) (rid : Nat)
    (hf : t.find rid = none) :
    t.getTextureViewId rid = .error .invalidHandle := by
  unfold ResourceTable.getTextureViewId
  rw [hf]

theorem takeCommandEncoderId_of_find_none (t : ResourceTable) (rid : Nat)
    (hf : t.find rid = none) :
    t.takeCommandEncoderId rid = .error .invalidHandle := by
  unfold ResourceTable.takeCommandEncoderId
  rw [hf]

theorem get_of_find_none (t : ResourceTable) (k : ResourceKind) (rid : Nat)
    (hf : t.find rid = none) : t.get k rid = .error .invalidHandle := by
  unfold ResourceTable.get
  rw [hf]

theorem take_of_find_none (t : ResourceTable) (k : ResourceKind) (rid : Nat)
    (hf : t.find rid = none) : t.take k rid = .error .invalidHandle := by
  unfold ResourceTable.take
  rw [get_of_find_none t k rid hf]

/-! ## Helper lemmas: successful lookups and takes -/

theorem get_ok_find (t : ResourceTable) (k : ResourceKind) (rid : Nat)
    (e : ResourceEntry) (h : t.get k rid = .ok e) : t.find rid = some e := by
  unfold ResourceTable.get at h
  split at h
  · next e' heq =>
    split at h
    · simp_all
    · simp_all
  · simp_all

theorem take_ok (t : ResourceTable) (k : ResourceKind) (rid : Nat)
    (e : ResourceEntry) (t' : ResourceTable)
    (h : t.take k rid = .ok (e, t')) :
    t.find rid = some e ∧ t' = ⟨t.nextRid, eraseEntry t.entries rid⟩ := by
  unfold ResourceTable.take at h
  split at h
  · next e' heq =>
    simp only [Except.ok.injEq, Prod.mk.injEq] at h
    obtain ⟨h1, h2⟩ := h
    subst h1
    exact ⟨get_ok_find t k rid e' heq, h2.symm⟩
  · simp_all

theorem getCommandEncoderId_of_find (t : ResourceTable) (rid : Nat)
    (id : Nat) (hf : t.find rid = some (.commandEncoder id)) :
    t.getCommandEncoderId rid = .ok id := by
  unfold ResourceTable.getCommandEncoderId
  rw [hf]

theorem getTextureViewId_of_find (t : ResourceTable) (rid : Nat)
    (id : Nat) (hf : t.find rid = some (.textureView id)) :
    t.getTextureViewId rid = .ok id := by
  unfold ResourceTable.getTextureViewId
  rw [hf]

theorem takeCommandEncoderId_of_find (t : ResourceTable) (rid : Nat)
    (id : Nat) (hf : t.find rid = some (.commandEncoder id)) :
    t.takeCommandEncoderId rid =
      .ok (id, ⟨t.nextRid, eraseEntry t.entries rid⟩) := by
  unfold ResourceTable.takeCommandEncoderId
  rw [hf]

theorem takeCommandEncoderId_ok (t : ResourceTable) (rid : Nat) (id : Nat)
    (t' : ResourceTable) (h : t.takeCommandEncoderId rid = .ok (id, t')) :
    t.find rid = some (.commandEncoder id) ∧
    t' = ⟨t.nextRid, eraseEntry t.entries rid⟩ := by
  unfold ResourceTable.takeCommandEncoderId at h
  split at h
  · next id' heq =>
    simp only [Except.ok.injEq, Prod.mk.injEq] at h
    obtain ⟨h1, h2⟩ := h
    subst h1
    exact ⟨heq, h2.symm⟩
  · simp_all
  · simp_all

/-! ## Helper lemmas: table evolution of the ops -/

theorem runEncoderOp_table_muts (op : EncoderOp) (s : OpState) :
    ∃ ms : List TableMut, (runEncoderOp op s).2.table = applyMuts s.table ms := by
  cases op with
  | beginRenderPass a =>
    simp only [runEncoderOp, op_webgpu_command_encoder_begin_render_pass]
    split
    · exact ⟨[], rfl⟩
    · split
      · exact ⟨[], rfl⟩
      · split
        · exact ⟨[], rfl⟩
        · exact ⟨[.ins _], rfl⟩
  | beginComputePass a =>
    simp only [runEncoderOp, op_webgpu_command_encoder_begin_compute_pass]
    split
    · exact ⟨[], rfl⟩
    · exact ⟨[.ins _], rfl⟩
  | copyBufferToBuffer a =>
    simp only [runEncoderOp, op_webgpu_command_encoder_copy_buffer_to_buffer]
    split
    · exact ⟨[], rfl⟩
    · split
      · exact ⟨[], rfl⟩
      · split
        · exact ⟨[], rfl⟩
        · exact ⟨[], rfl⟩
  | copyBufferToTexture a =>
    simp only [runEncoderOp, op_webgpu_command_encoder_copy_buffer_to_texture]
    split
    · exact ⟨[], rfl⟩
    · split
      · exact ⟨[], rfl⟩
      · split
        · exact ⟨[], rfl⟩
        · exact ⟨[], rfl⟩
  | copyTextureToBuffer a =>
    simp only [runEncoderOp, op_webgpu_command_encoder_copy_texture_to_buffer]
    split
    · exact ⟨[], rfl⟩
    · split
      · exact ⟨[], rfl⟩
      · split
        · exact ⟨[], rfl⟩
        · exact ⟨[], rfl⟩
  | copyTextureToTexture a =>
    simp only [runEncoderOp, op_webgpu_command_encoder_copy_texture_to_texture]
    split
    · exact ⟨[], rfl⟩
    · split
      · exact ⟨[], rfl⟩
      · split
        · exact ⟨[], rfl⟩
        · exact ⟨[], rfl⟩
  | pushDebugGroup a =>
    simp only [runEncoderOp, op_webgpu_command_encoder_push_debug_group]
    split
    · exact ⟨[], rfl⟩
    · exact ⟨[], rfl⟩
  | popDebugGroup a =>
    simp only [runEncoderOp, op_webgpu_command_encoder_pop_debug_group]
    split
    · exact ⟨[], rfl⟩
    · exact ⟨[], rfl⟩
  | insertDebugMarker a =>
    simp only [runEncoderOp, op_webgpu_command_encoder_insert_debug_marker]
    split
    · exact ⟨[], rfl⟩
    · exact ⟨[], rfl⟩
  | writeTimestamp a =>
    simp only [runEncoderOp, op_webgpu_command_encoder_write_timestamp]
    split
    · exact ⟨[], rfl⟩
    · split
      · exact ⟨[], rfl⟩
      · exact ⟨[], rfl⟩
  | resolveQuerySet a =>
    simp only [runEncoderOp, op_webgpu_command_encoder_resolve_query_set]
    split
    · exact ⟨[], rfl⟩
    · split
      · exact ⟨[], rfl⟩
      · split
        · exact ⟨[], rfl⟩
        · exact ⟨[], rfl⟩
  | finish a =>
    simp only [runEncoderOp, op_webgpu_command_encoder_finish]
    split
    · exact ⟨[], rfl⟩
    · next command_encoder table heq =>
      obtain ⟨hfind, htbl⟩ := takeCommandEncoderId_ok _ _ _ _ heq
      subst htbl
      exact ⟨[.del a.command_encoder_rid, .ins (.commandBuffer _)], rfl⟩

theorem dead_runEncoderOp (op : EncoderOp) (s : OpState) (h : Nat)
    (hd : Dead s.table h) : Dead (runEncoderOp op s).2.table h := by
  obtain ⟨ms, hm⟩ := runEncoderOp_table_muts op s
  rw [hm]
  exact dead_applyMuts _ _ _ hd

theorem dead_runEncoderOps (ops : List EncoderOp) (s : OpState) (h : Nat)
    (hd : Dead s.table h) : Dead (runEncoderOps ops s).table h := by
  induction ops generalizing s with
  | nil => exact hd
  | cons op rest ih => exact ih _ (dead_runEncoderOp op s h hd)

theorem runEncoderOp_dead_fails (op : EncoderOp) (s : OpState)
    (hf : s.table.find op.encoderRid = none) :
    runEncoderOp op s = (.error .invalidHandle, s) := by
  cases op with
  | beginRenderPass a =>
    simp only [EncoderOp.encoderRid] at hf
    simp only [runEncoderOp, op_webgpu_command_encoder_begin_render_pass,
      getCommandEncoderId_of_find_none _ _ hf]
  | beginComputePass a =>
    simp only [EncoderOp.encoderRid] at hf
    simp only [runEncoderOp, op_webgpu_command_encoder_begin_compute_pass,
      getCommandEncoderId_of_find_none _ _ hf]
  | copyBufferToBuffer a =>
    simp only [EncoderOp.encoderRid] at hf
    simp only [runEncoderOp, op_webgpu_command_encoder_copy_buffer_to_buffer,
      getCommandEncoderId_of_find_none _ _ hf]
  | copyBufferToTexture a =>
    simp only [EncoderOp.encoderRid] at hf
    simp only [runEncoderOp, op_webgpu_command_encoder_copy_buffer_to_texture,
      getCommandEncoderId_of_find_none _ _ hf]
  | copyTextureToBuffer a =>
    simp only [EncoderOp.encoderRid] at hf
    simp only [runEncoderOp, op_webgpu_command_encoder_copy_texture_to_buffer,
      getCommandEncoderId_of_find_none _ _ hf]
  | copyTextureToTexture a =>
    simp only [EncoderOp.encoderRid] at hf
    simp only [runEncoderOp, op_webgpu_command_encoder_copy_texture_to_texture,
      getCommandEncoderId_of_find_none _ _ hf]
  | pushDebugGroup a =>
    simp only [EncoderOp.encoderRid] at hf
    simp only [runEncoderOp, op_webgpu_command_encoder_push_debug_group,
      getCommandEncoderId_of_find_none _ _ hf]
  | popDebugGroup a =>
    simp only [EncoderOp.encoderRid] at hf
    simp only [runEncoderOp, op_webgpu_command_encoder_pop_debug_group,
      getCommandEncoderId_of_find_none _ _ hf]
  | insertDebugMarker a =>
    simp only [EncoderOp.encoderRid] at hf
    simp only [runEncoderOp, op_webgpu_command_encoder_insert_debug_marker,
      getCommandEncoderId_of_find_none _ _ hf]
  | writeTimestamp a =>
    simp only [EncoderOp.encoderRid] at hf
    simp only [runEncoderOp, op_webgpu_command_encoder_write_timestamp,
      getCommandEncoderId_of_find_none _ _ hf]
  | resolveQuerySet a =>
    simp only [EncoderOp.encoderRid] at hf
    simp only [runEncoderOp, op_webgpu_command_encoder_resolve_query_set,
      getCommandEncoderId_of_find_none _ _ hf]
  | finish a =>
    simp only [EncoderOp.encoderRid] at hf
    simp only [runEncoderOp, op_webgpu_command_encoder_finish,
      takeCommandEncoderId_of_find_none _ _ hf]

/-! ## Helper lemmas: attachment translation failures -/

theorem translateColorAttachment_error (t : ResourceTable)
    (ca : GpuRenderPassColorAttachment) (e : WebGpuError)
    (h : translateColorAttachment t ca = .error e) : e = .invalidHandle := by
  unfold translateColorAttachment at h
  split at h
  · next e1 heq =>
    have h1 := getTextureViewId_error _ _ _ heq
    simp_all
  · split at h
    · next e2 heq =>
      split at heq
      · simp_all
      · split at heq
        · next e3 heq3 =>
          have h3 := getTextureViewId_error _ _ _ heq3
          simp_all
        · simp_all
    · simp_all

theorem translateColorAttachments_error (t : ResourceTable)
    (l : List GpuRenderPassColorAttachment) (e : WebGpuError)
    (h : translateColorAttachments t l = .error e) : e = .invalidHandle := by
  induction l with
  | nil => simp [translateColorAttachments] at h
  | cons ca rest ih =>
    unfold translateColorAttachments at h
    split at h
    · next e1 heq =>
      have := translateColorAttachment_error _ _ _ heq
      simp_all
    · split at h
      · next e2 heq =>
        simp only [Except.error.injEq] at h
        subst h
        exact ih heq
      · simp_all

theorem translateDepthStencilAttachment_error (t : ResourceTable)
    (a : GpuRenderPassDepthStencilAttachment) (e : WebGpuError)
    (h : translateDepthStencilAttachment t a = .error e) :
    e = .invalidHandle := by
  unfold translateDepthStencilAttachment at h
  split at h
  · next e1 heq =>
    have := getTextureViewId_error _ _ _ heq
    simp_all
  · simp_all

theorem translateColorAttachment_fails (t : ResourceTable)
    (ca : GpuRenderPassColorAttachment)
    (hv : (∃ e, t.getTextureViewId ca.view = .error e) ∨
      (∃ rid, ca.resolve_target = some rid ∧
        ∃ e, t.getTextureViewId rid = .error e)) :
    translateColorAttachment t ca = .error .invalidHandle := by
  rcases hg : t.getTextureViewId ca.view with e1 | v1
  · have := getTextureViewId_error _ _ _ hg
    subst this
    unfold translateColorAttachment
    rw [hg]
  · rcases hv with ⟨e, he⟩ | ⟨rid, hrt, e, he⟩
    · rw [hg] at he; cases he
    · have := getTextureViewId_error _ _ _ he
      subst this
      unfold translateColorAttachment
      simp only [hg, hrt, he]

theorem translateColorAttachments_fails_of_mem (t : ResourceTable)
    (l : List GpuRenderPassColorAttachment) (ca : GpuRenderPassColorAttachment)
    (hm : ca ∈ l)
    (hf : translateColorAttachment t ca = .error .invalidHandle) :
    translateColorAttachments t l = .error .invalidHandle := by
  induction l with
  | nil => cases hm
  | cons hd rest ih =>
    unfold translateColorAttachments
    rcases List.mem_cons.mp hm with hca | hca
    · subst hca
      rw [hf]
    · rcases hh : translateColorAttachment t hd with e1 | a1
      · have := translateColorAttachment_error _ _ _ hh
        subst this
        rfl
      · rw [ih hca]

/-! ## Claim theorems -/

/-- C2: translating a color attachment with `loadOp = Clear(color)` yields a
backend `PassChannel` with `load_op = Clear` and exactly the wire color as
clear value; translating `loadOp = Load` yields `load_op = Load` with the
zero placeholder clear value — the zero color for color channels, `0.0` for
the depth channel, `0` for the stencil channel — while `Clear` payloads on
depth/stencil are carried verbatim. -/
theorem clear_load_translation_exact :
    (∀ (t : ResourceTable) (ca : GpuRenderPassColorAttachment)
       (color : GpuColor) (r : RenderPassColorAttachment),
       ca.load_op = .Clear color → translateColorAttachment t ca = .ok r →
       r.channel.load_op = .Clear ∧
       r.channel.clear_value = ⟨color.r, color.g, color.b, color.a⟩) ∧
    (∀ (t : ResourceTable) (ca : GpuRenderPassColorAttachment)
       (r : RenderPassColorAttachment),
       ca.load_op = .Load → translateColorAttachment t ca = .ok r →
       r.channel.load_op = .Load ∧
       r.channel.clear_value = ⟨F64.zero, F64.zero, F64.zero, F64.zero⟩) ∧
    (∀ (t : ResourceTable) (a : GpuRenderPassDepthStencilAttachment)
       (r : RenderPassDepthStencilAttachment),
       translateDepthStencilAttachment t a = .ok r →
       (a.depth_load_op = .Load →
         r.depth.load_op = .Load ∧ r.depth.clear_value = F32.zero) ∧
       (∀ v, a.depth_load_op = .Clear v →
         r.depth.load_op = .Clear ∧ r.depth.clear_value = v) ∧
       (a.stencil_load_op = .Load →
         r.stencil.load_op = .Load ∧ r.stencil.clear_value = 0) ∧
       (∀ v, a.stencil_load_op = .Clear v →
         r.stencil.load_op = .Clear ∧ r.stencil.clear_value = v)) := by
  refine ⟨?_, ?_, ?_⟩
  · intro t ca color r hload htr
    unfold translateColorAttachment at htr
    split at htr
    · simp_all
    · split at htr
      · simp_all
      · simp only [Except.ok.injEq] at htr
        subst htr
        simp [hload]
  · intro t ca r hload htr
    unfold translateColorAttachment at htr
    split at htr
    · simp_all
    · split at htr
      · simp_all
      · simp only [Except.ok.injEq] at htr
        subst htr
        simp [hload, Color.default]
  · intro t a r htr
    unfold translateDepthStencilAttachment at htr
    split at htr
    · simp_all
    · simp only [Except.ok.injEq] at htr
      subst htr
      refine ⟨?_, ?_, ?_, ?_⟩
      · intro hdl; simp [hdl]
      · intro v hdl; simp [hdl]
      · intro hsl; simp [hsl]
      · intro v hsl; simp [hsl]

/-- C2 witness: the sample attachments evaluate as the theorem states. -/
theorem clear_load_translation_exact_witness :
    (sampleColorResult.channel.load_op = .Clear ∧
     sampleColorResult.channel.clear_value =
       ⟨⟨0x3FF0000000000000⟩, ⟨0⟩, ⟨0⟩, ⟨0x3FF0000000000000⟩⟩) ∧
    (sampleLoadResult.channel.load_op = .Load ∧
     sampleLoadResult.channel.clear_value =
       ⟨F64.zero, F64.zero, F64.zero, F64.zero⟩) ∧
    (sampleDepthStencilResult.depth.load_op = .Load ∧
     sampleDepthStencilResult.depth.clear_value = F32.zero) :=
  ⟨clear_load_translation_exact.1 sampleTable sampleColorAttachment _
      sampleColorResult rfl rfl,
   clear_load_translation_exact.2.1 sampleTable sampleLoadAttachment
      sampleLoadResult rfl rfl,
   (clear_load_translation_exact.2.2 sampleTable sampleDepthStencilAttachment
      sampleDepthStencilResult rfl).1 rfl⟩

/-- C3: in the image-copy layout built for buffer-to-texture and
texture-to-buffer copies (`mkImageCopyBuffer`, the layout construction of
`command_encoder.rs:357-364` and `411-418`), an omitted `bytesPerRow` or
`rowsPerImage` — or the wire sentinel `0` — becomes the backend's
"unspecified" representation `none`, never the numeric value `0`; a nonzero
value is carried through. -/
theorem rows_sentinel_unspecified :
    ∀ (id : Nat) (w : GpuImageCopyBuffer),
      ((w.bytes_per_row = none ∨ w.bytes_per_row = some 0) →
        (mkImageCopyBuffer id w).layout.bytes_per_row = none) ∧
      ((w.rows_per_image = none ∨ w.rows_per_image = some 0) →
        (mkImageCopyBuffer id w).layout.rows_per_image = none) ∧
      (∀ n, n ≠ 0 → w.bytes_per_row = some n →
        (mkImageCopyBuffer id w).layout.bytes_per_row = some n) ∧
      (∀ n, n ≠ 0 → w.rows_per_image = some n →
        (mkImageCopyBuffer id w).layout.rows_per_image = some n) ∧
      (mkImageCopyBuffer id w).layout.bytes_per_row ≠ some 0 ∧
      (mkImageCopyBuffer id w).layout.rows_per_image ≠ some 0 := by
  intro id w
  refine ⟨?_, ?_, ?_, ?_, ?_, ?_⟩
  · rintro (h | h) <;> simp [mkImageCopyBuffer, nonZeroU32New, h]
  · rintro (h | h) <;> simp [mkImageCopyBuffer, nonZeroU32New, h]
  · intro n hn h; simp [mkImageCopyBuffer, nonZeroU32New, h, hn]
  · intro n hn h; simp [mkImageCopyBuffer, nonZeroU32New, h, hn]
  · by_cases h : w.bytes_per_row.getD 0 = 0 <;>
      simp [mkImageCopyBuffer, nonZeroU32New, h]
  · by_cases h : w.rows_per_image.getD 0 = 0 <;>
      simp [mkImageCopyBuffer, nonZeroU32New, h]

/-- C3 witness: a wire descriptor with `bytesPerRow` omitted and
`rowsPerImage = 0` yields `none` for both, and never `some 0`. -/
theorem rows_sentinel_unspecified_witness :
    (mkImageCopyBuffer 11 ⟨2, 0, none, some 0⟩).layout.bytes_per_row = none ∧
    (mkImageCopyBuffer 11 ⟨2, 0, none, some 0⟩).layout.rows_per_image = none ∧
    (mkImageCopyBuffer 11 ⟨2, 0, none, some 0⟩).layout.bytes_per_row ≠ some 0 :=
  ⟨(rows_sentinel_unspecified 11 ⟨2, 0, none, some 0⟩).1 (Or.inl rfl),
   (rows_sentinel_unspecified 11 ⟨2, 0, none, some 0⟩).2.1 (Or.inr rfl),
   (rows_sentinel_unspecified 11 ⟨2, 0, none, some 0⟩).2.2.2.2.1⟩

/-- C9: every translated color attachment has `read_only = false` in its
backend `PassChannel`, whatever the wire descriptor contains; only the depth
and stencil channels carry the caller-controlled read-only flags. -/
theorem color_channel_read_only_false :
    (∀ (t : ResourceTable) (ca : GpuRenderPassColorAttachment)
       (r : RenderPassColorAttachment),
       translateColorAttachment t ca = .ok r → r.channel.read_only = false) ∧
    (∀ (t : ResourceTable) (a : GpuRenderPassDepthStencilAttachment)
       (r : RenderPassDepthStencilAttachment),
       translateDepthStencilAttachment t a = .ok r →
       r.depth.read_only = a.depth_read_only ∧
       r.stencil.read_only = a.stencil_read_only) := by
  constructor
  · intro t ca r htr
    unfold translateColorAttachment at htr
    split at htr
    · simp_all
    · split at htr
      · simp_all
      · simp only [Except.ok.injEq] at htr
        subst htr
        rcases hl : ca.load_op with _ | c <;> simp [hl]
  · intro t a r htr
    unfold translateDepthStencilAttachment at htr
    split at htr
    · simp_all
    · simp only [Except.ok.injEq] at htr
      subst htr
      constructor
      · rcases hl : a.depth_load_op with _ | v <;> simp [hl]
      · rcases hl : a.stencil_load_op with _ | v <;> simp [hl]

/-- C9 witness: evaluated on the sample attachments. -/
theorem color_channel_read_only_false_witness :
    sampleColorResult.channel.read_only = false ∧
    (sampleDepthStencilResult.depth.read_only =
       sampleDepthStencilAttachment.depth_read_only ∧
     sampleDepthStencilResult.stencil.read_only =
       sampleDepthStencilAttachment.stencil_read_only) :=
  ⟨color_channel_read_only_false.1 sampleTable sampleColorAttachment
      sampleColorResult rfl,
   color_channel_read_only_false.2 sampleTable sampleDepthStencilAttachment
      sampleDepthStencilResult rfl⟩

/-- C10: the `_measure_execution_time` field of create-command-encoder and
the `_occlusion_query_set` field of begin-render-pass are accepted but have
no effect: two calls whose arguments differ only in these fields produce the
same result and the same state. -/
theorem unused_fields_no_effect :
    (∀ (s : OpState) (a : CreateCommandEncoderArgs) (m : Option Bool),
      op_webgpu_create_command_encoder s
          { a with _measure_execution_time := m } =
        op_webgpu_create_command_encoder s a) ∧
    (∀ (s : OpState) (a : CommandEncoderBeginRenderPassArgs) (q : Option Nat),
      op_webgpu_command_encoder_begin_render_pass s
          { a with _occlusion_query_set := q } =
        op_webgpu_command_encoder_begin_render_pass s a) := by
  constructor
  · intro s a m
    cases a
    rfl
  · intro s a q
    cases a
    rfl

/-- C1: once a destructive take succeeds on a handle, every subsequent get or
take on that handle — at any expected type, after any further sequence of
table mutations — fails with InvalidHandle; in particular, after finish
succeeds on an encoder handle, every subsequent encoder operation invoked
with that handle (after any further sequence of encoder operations) fails
with InvalidHandle and leaves the state unchanged. -/
theorem take_invalidates_handle_forever :
    (∀ (t : ResourceTable) (k k' : ResourceKind) (h : Nat)
       (e : ResourceEntry) (t' : ResourceTable), t.WF →
       t.take k h = .ok (e, t') →
       ∀ ms : List TableMut,
         (applyMuts t' ms).get k' h = .error .invalidHandle ∧
         (applyMuts t' ms).take k' h = .error .invalidHandle) ∧
    (∀ (s : OpState) (args : CommandEncoderFinishArgs)
       (r : WebGpuResult) (s₁ : OpState), s.table.WF →
       op_webgpu_command_encoder_finish s args = (.ok r, s₁) →
       ∀ (ops : List EncoderOp) (eo : EncoderOp),
         eo.encoderRid = args.command_encoder_rid →
         runEncoderOp eo (runEncoderOps ops s₁) =
           (.error .invalidHandle, runEncoderOps ops s₁)) := by
  constructor
  · intro t k k' h e t' hwf htake ms
    obtain ⟨hfind, ht'⟩ := take_ok t k h e t' htake
    have hlt : h < t.nextRid := hwf _ (findEntry_mem _ _ _ hfind)
    have hdead : Dead t' h := by
      subst ht'
      exact ⟨findEntry_eraseEntry_self _ _, hlt⟩
    have hdead' := dead_applyMuts t' h ms hdead
    exact ⟨get_of_find_none _ _ _ hdead'.1, take_of_find_none _ _ _ hdead'.1⟩
  · intro s args r s₁ hwf hfin ops eo hrid
    unfold op_webgpu_command_encoder_finish at hfin
    split at hfin
    · simp_all
    · next enc table heq =>
      obtain ⟨hfind, htbl⟩ := takeCommandEncoderId_ok _ _ _ _ heq
      have hlt : args.command_encoder_rid < s.table.nextRid :=
        hwf _ (findEntry_mem _ _ _ hfind)
      rcases hb : s.backend.commandEncoderFinish enc args.label with
        ⟨bufId, maybeErr, backend⟩
      rw [hb] at hfin
      simp only [Prod.mk.injEq] at hfin
      obtain ⟨hr, hs⟩ := hfin
      have hdead : Dead s₁.table args.command_encoder_rid := by
        rw [← hs]
        subst htbl
        refine ⟨?_, by show args.command_encoder_rid < s.table.nextRid + 1; omega⟩
        show findEntry ((s.table.nextRid, ResourceEntry.commandBuffer bufId) ::
          eraseEntry s.table.entries args.command_encoder_rid)
          args.command_encoder_rid = none
        rw [findEntry, if_neg (by omega)]
        exact findEntry_eraseEntry_self _ _
      have hdead₂ := dead_runEncoderOps ops s₁ _ hdead
      exact runEncoderOp_dead_fails eo _ (by rw [hrid]; exact hdead₂.1)

/-- C1 witness: encoder handle 1 is taken from the sample table; a later
insertion does not revive it, and after a successful finish the pop-debug-
group op on handle 1 fails with InvalidHandle. -/
theorem take_invalidates_handle_forever_witness :
    ((applyMuts sampleTableTaken [.ins (.buffer 99)]).get .buffer 1 =
       .error .invalidHandle ∧
     (applyMuts sampleTableTaken [.ins (.buffer 99)]).take .buffer 1 =
       .error .invalidHandle) ∧
    runEncoderOp (.popDebugGroup ⟨1⟩) sampleFinishedState =
      (.error .invalidHandle, sampleFinishedState) :=
  ⟨take_invalidates_handle_forever.1 sampleTable .commandEncoder .buffer 1
      (.commandEncoder 10) sampleTableTaken (by decide) rfl [.ins (.buffer 99)],
   take_invalidates_handle_forever.2 sampleState ⟨1, none⟩ ⟨some 8, none⟩
      sampleFinishedState (by decide) rfl [] (.popDebugGroup ⟨1⟩) rfl⟩

/-- C8: finish destructively takes the encoder entry before invoking the
backend conversion, so even when the backend finish step reports an error the
encoder handle is invalidated — nothing reinserts the entry; the backend
error travels in-band next to the fresh command-buffer handle. -/
theorem finish_take_no_rollback :
    ∀ (s : OpState) (args : CommandEncoderFinishArgs) (id : Nat),
      s.table.WF →
      s.table.find args.command_encoder_rid = some (.commandEncoder id) →
      (op_webgpu_command_encoder_finish s args).2.table.find
          args.command_encoder_rid = none ∧
      ∀ er, (s.backend.commandEncoderFinish id args.label).2.1 = some er →
        (op_webgpu_command_encoder_finish s args).1 =
          .ok (WebGpuResult.ridErr s.table.nextRid (some er)) := by
  intro s args id hwf hfind
  have hlt : args.command_encoder_rid < s.table.nextRid :=
    hwf _ (findEntry_mem _ _ _ hfind)
  rcases hb : s.backend.commandEncoderFinish id args.label with
    ⟨bufId, maybeErr, backend⟩
  constructor
  · simp only [op_webgpu_command_encoder_finish,
      takeCommandEncoderId_of_find _ _ _ hfind, hb]
    show findEntry ((s.table.nextRid, ResourceEntry.commandBuffer bufId) ::
      eraseEntry s.table.entries args.command_encoder_rid)
      args.command_encoder_rid = none
    rw [findEntry, if_neg (by omega)]
    exact findEntry_eraseEntry_self _ _
  · intro er her
    replace her : maybeErr = some er := her
    subst her
    simp only [op_webgpu_command_encoder_finish,
      takeCommandEncoderId_of_find _ _ _ hfind, hb]
    rfl

/-- C8 witness: finishing encoder handle 1 while the backend encoder still
has an open pass reports EncoderOperationFailed in-band, yet the encoder
handle no longer resolves afterwards. -/
theorem finish_take_no_rollback_witness :
    (op_webgpu_command_encoder_finish sampleStateOpenPass
        ⟨1, none⟩).2.table.find 1 = none ∧
    (op_webgpu_command_encoder_finish sampleStateOpenPass ⟨1, none⟩).1 =
      .ok (WebGpuResult.ridErr 8 (some .encoderOperationFailed)) :=
  ⟨(finish_take_no_rollback sampleStateOpenPass ⟨1, none⟩ 10
      (by decide) rfl).1,
   (finish_take_no_rollback sampleStateOpenPass ⟨1, none⟩ 10
      (by decide) rfl).2 .encoderOperationFailed rfl⟩

/-- C5 counterexample: finishing encoder handle 1 succeeds, and a subsequent
copyBufferToBuffer on handle 1 then fails with InvalidHandle — which is not
InvalidEncoderState, contradicting the claim that operations attempted after
finish fail with InvalidEncoderState. -/
theorem post_finish_copy_fails_invalid_handle :
    (op_webgpu_command_encoder_finish sampleState ⟨1, none⟩).1 =
      .ok ⟨some 8, none⟩ ∧
    (op_webgpu_command_encoder_copy_buffer_to_buffer
        (op_webgpu_command_encoder_finish sampleState ⟨1, none⟩).2
        ⟨1, 2, 0, 3, 0, 1024⟩).1 = .error .invalidHandle ∧
    WebGpuError.invalidHandle ≠ WebGpuError.invalidEncoderState :=
  ⟨rfl, rfl, by decide⟩

/-- C5 amended: the layer tracks no Recording/Finished encoder state and no
operation ever fails with InvalidEncoderState; every copy, debug, query and
pass-begin (and finish) operation whose encoder handle no longer resolves —
in particular after finish removed it — fails with InvalidHandle, leaving the
state unchanged. -/
theorem encoder_op_error_never_encoder_state :
    (∀ (eo : EncoderOp) (s : OpState) (e : WebGpuError),
      (runEncoderOp eo s).1 = .error e → e = .invalidHandle) ∧
    (∀ (eo : EncoderOp) (s : OpState),
      s.table.find eo.encoderRid = none →
      runEncoderOp eo s = (.error .invalidHandle, s)) := by
  constructor
  · intro eo s e hrun
    cases eo with
    | beginRenderPass a =>
      simp only [runEncoderOp, op_webgpu_command_encoder_begin_render_pass,
        ResourceTable.add] at hrun
      split at hrun
      · next e1 heq =>
        have h1 := getCommandEncoderId_error _ _ _ heq
        simp_all
      · split at hrun
        · next e1 heq =>
          have h1 := translateColorAttachments_error _ _ _ heq
          simp_all
        · split at hrun
          · next e1 heq =>
            split at heq
            · simp_all
            · split at heq
              · next e2 heq2 =>
                have h1 := translateDepthStencilAttachment_error _ _ _ heq2
                simp_all
              · simp_all
          · simp_all
    | beginComputePass a =>
      simp only [runEncoderOp, op_webgpu_command_encoder_begin_compute_pass,
        ResourceTable.add] at hrun
      split at hrun
      · next e1 heq =>
        have h1 := getCommandEncoderId_error _ _ _ heq
        simp_all
      · simp_all
    | copyBufferToBuffer a =>
      simp only [runEncoderOp,
        op_webgpu_command_encoder_copy_buffer_to_buffer] at hrun
      split at hrun
      · next e1 heq =>
        have h1 := getCommandEncoderId_error _ _ _ heq
        simp_all
      · split at hrun
        · next e1 heq =>
          have h1 := getBufferId_error _ _ _ heq
          simp_all
        · split at hrun
          · next e1 heq =>
            have h1 := getBufferId_error _ _ _ heq
            simp_all
          · simp_all
    | copyBufferToTexture a =>
      simp only [runEncoderOp,
        op_webgpu_command_encoder_copy_buffer_to_texture] at hrun
      split at hrun
      · next e1 heq =>
        have h1 := getCommandEncoderId_error _ _ _ heq
        simp_all
      · split at hrun
        · next e1 heq =>
          have h1 := getBufferId_error _ _ _ heq
          simp_all
        · split at hrun
          · next e1 heq =>
            have h1 := getTextureId_error _ _ _ heq
            simp_all
          · simp_all
    | copyTextureToBuffer a =>
      simp only [runEncoderOp,
        op_webgpu_command_encoder_copy_texture_to_buffer] at hrun
      split at hrun
      · next e1 heq =>
        have h1 := getCommandEncoderId_error _ _ _ heq
        simp_all
      · split at hrun
        · next e1 heq =>
          have h1 := getTextureId_error _ _ _ heq
          simp_all
        · split at hrun
          · next e1 heq =>
            have h1 := getBufferId_error _ _ _ heq
            simp_all
          · simp_all
    | copyTextureToTexture a =>
      simp only [runEncoderOp,
        op_webgpu_command_encoder_copy_texture_to_texture] at hrun
      split at hrun
      · next e1 heq =>
        have h1 := getCommandEncoderId_error _ _ _ heq
        simp_all
      · split at hrun
        · next e1 heq =>
          have h1 := getTextureId_error _ _ _ heq
          simp_all
        · split at hrun
          · next e1 heq =>
            have h1 := getTextureId_error _ _ _ heq
            simp_all
          · simp_all
    | pushDebugGroup a =>
      simp only [runEncoderOp,
        op_webgpu_command_encoder_push_debug_group] at hrun
      split at hrun
      · next e1 heq =>
        have h1 := getCommandEncoderId_error _ _ _ heq
        simp_all
      · simp_all
    | popDebugGroup a =>
      simp only [runEncoderOp,
        op_webgpu_command_encoder_pop_debug_group] at hrun
      split at hrun
      · next e1 heq =>
        have h1 := getCommandEncoderId_error _ _ _ heq
        simp_all
      · simp_all
    | insertDebugMarker a =>
      simp only [runEncoderOp,
        op_webgpu_command_encoder_insert_debug_marker] at hrun
      split at hrun
      · next e1 heq =>
        have h1 := getCommandEncoderId_error _ _ _ heq
        simp_all
      · simp_all
    | writeTimestamp a =>
      simp only [runEncoderOp,
        op_webgpu_command_encoder_write_timestamp] at hrun
      split at hrun
      · next e1 heq =>
        have h1 := getCommandEncoderId_error _ _ _ heq
        simp_all
      · split at hrun
        · next e1 heq =>
          have h1 := getQuerySetId_error _ _ _ heq
          simp_all
        · simp_all
    | resolveQuerySet a =>
      simp only [runEncoderOp,
        op_webgpu_command_encoder_resolve_query_set] at hrun
      split at hrun
      · next e1 heq =>
        have h1 := getCommandEncoderId_error _ _ _ heq
        simp_all
      · split at hrun
        · next e1 heq =>
          have h1 := getQuerySetId_error _ _ _ heq
          simp_all
        · split at hrun
          · next e1 heq =>
            have h1 := getBufferId_error _ _ _ heq
            simp_all
          · simp_all
    | finish a =>
      simp only [runEncoderOp, op_webgpu_command_encoder_finish,
        ResourceTable.add] at hrun
      split at hrun
      · next e1 heq =>
        have h1 := takeCommandEncoderId_error _ _ _ heq
        simp_all
      · simp_all
  · intro eo s hf
    exact runEncoderOp_dead_fails eo s hf

/-- C5 amended-theorem witness: instantiated at the state produced by the
successful finish of the sample encoder. -/
theorem encoder_op_error_never_encoder_state_witness :
    WebGpuError.invalidHandle = WebGpuError.invalidHandle ∧
    runEncoderOp (.insertDebugMarker ⟨1, "m"⟩) sampleFinishedState =
      (.error .invalidHandle, sampleFinishedState) :=
  ⟨encoder_op_error_never_encoder_state.1
      (.insertDebugMarker ⟨1, "m"⟩) sampleFinishedState .invalidHandle rfl,
   encoder_op_error_never_encoder_state.2
      (.insertDebugMarker ⟨1, "m"⟩) sampleFinishedState rfl⟩

/-- C7: begin-render-pass performs no minimum-attachment-count validation:
with a valid encoder handle and an empty colorAttachments list — whether the
depth/stencil attachment is absent or present with a resolving view — the op
succeeds, registers a render-pass recorder bound to the encoder, and returns
the fresh handle. -/
theorem begin_render_pass_no_min_attachments :
    ∀ (s : OpState) (args : CommandEncoderBeginRenderPassArgs) (id : Nat),
      s.table.find args.command_encoder_rid = some (.commandEncoder id) →
      args.color_attachments = [] →
      (args.depth_stencil_attachment = none ∨
        ∃ a vid, args.depth_stencil_attachment = some a ∧
          s.table.find a.view = some (.textureView vid)) →
      (op_webgpu_command_encoder_begin_render_pass s args).1 =
        .ok (WebGpuResult.mkRid s.table.nextRid) ∧
      ∃ d, (op_webgpu_command_encoder_begin_render_pass s args).2.table.find
          s.table.nextRid = some (.renderPass id d) := by
  intro s args id hfind hca hdsa
  rcases hdsa with hdsa | ⟨a, vid, hdsa, hview⟩
  · constructor
    · simp only [op_webgpu_command_encoder_begin_render_pass,
        getCommandEncoderId_of_find _ _ _ hfind, hca, hdsa,
        translateColorAttachments]
      rfl
    · simp only [op_webgpu_command_encoder_begin_render_pass,
        getCommandEncoderId_of_find _ _ _ hfind, hca, hdsa,
        translateColorAttachments, ResourceTable.add, ResourceTable.find]
      exact ⟨_, by rw [findEntry, if_pos rfl]⟩
  · constructor
    · simp only [op_webgpu_command_encoder_begin_render_pass,
        getCommandEncoderId_of_find _ _ _ hfind, hca, hdsa,
        translateColorAttachments, translateDepthStencilAttachment,
        getTextureViewId_of_find _ _ _ hview]
      rfl
    · simp only [op_webgpu_command_encoder_begin_render_pass,
        getCommandEncoderId_of_find _ _ _ hfind, hca, hdsa,
        translateColorAttachments, translateDepthStencilAttachment,
        getTextureViewId_of_find _ _ _ hview, ResourceTable.add,
        ResourceTable.find]
      exact ⟨_, by rw [findEntry, if_pos rfl]⟩

/-- C7 witness: begin-render-pass on the sample state with an empty
colorAttachments list and no depth/stencil attachment succeeds with the
fresh handle 8. -/
theorem begin_render_pass_no_min_attachments_witness :
    (op_webgpu_command_encoder_begin_render_pass sampleState
        ⟨1, none, [], none, none⟩).1 = .ok (WebGpuResult.mkRid 8) :=
  (begin_render_pass_no_min_attachments sampleState
      ⟨1, none, [], none, none⟩ 10 rfl rfl (Or.inl rfl)).1

/-- C6: descriptor translation is a pure, deterministic function of the table
and the wire arguments: begin-render-pass depends on no state but the table
(equal tables give equal results and equal result tables, whatever else the
states hold), and a buffer-to-texture copy is exactly its table-only
translation phase (`copyBufferToTextureRecords`) followed by the backend
append, leaving the table unchanged — so translating the same wire
descriptor twice against the same table yields structurally identical
backend records. -/
theorem descriptor_translation_pure :
    (∀ (s₁ s₂ : OpState) (args : CommandEncoderBeginRenderPassArgs),
      s₁.table = s₂.table →
      (op_webgpu_command_encoder_begin_render_pass s₁ args).1 =
        (op_webgpu_command_encoder_begin_render_pass s₂ args).1 ∧
      (op_webgpu_command_encoder_begin_render_pass s₁ args).2.table =
        (op_webgpu_command_encoder_begin_render_pass s₂ args).2.table) ∧
    (∀ (s : OpState) (args : CommandEncoderCopyBufferToTextureArgs),
      (op_webgpu_command_encoder_copy_buffer_to_texture s args).2.table =
        s.table ∧
      (∀ enc src dst ext,
        copyBufferToTextureRecords s.table args = .ok (enc, src, dst, ext) →
        op_webgpu_command_encoder_copy_buffer_to_texture s args =
          (.ok (WebGpuResult.maybeErr
              (s.backend.record enc (.copyBufferToTexture src dst ext)).1),
            ⟨s.table,
              (s.backend.record enc (.copyBufferToTexture src dst ext)).2⟩)) ∧
      (∀ e, copyBufferToTextureRecords s.table args = .error e →
        op_webgpu_command_encoder_copy_buffer_to_texture s args =
          (.error e, s))) := by
  constructor
  · intro s₁ s₂ args ht
    obtain ⟨t₁, b₁⟩ := s₁
    obtain ⟨t₂, b₂⟩ := s₂
    replace ht : t₁ = t₂ := ht
    subst ht
    simp only [op_webgpu_command_encoder_begin_render_pass]
    rcases hg : OpState.table ⟨t₁, b₁⟩ |>.getCommandEncoderId
        args.command_encoder_rid with e | enc
    · simp only [hg]
      exact ⟨trivial, trivial⟩
    · simp only [hg]
      rcases hca : translateColorAttachments t₁ args.color_attachments
        with e | cas
      · simp only [hca]
        exact ⟨trivial, trivial⟩
      · simp only [hca]
        rcases hd : args.depth_stencil_attachment with _ | da
        · simp only [hd]
          exact ⟨trivial, trivial⟩
        · simp only [hd]
          rcases hdt : translateDepthStencilAttachment t₁ da with e | dr
          · simp only [hdt]
            exact ⟨trivial, trivial⟩
          · simp only [hdt]
            exact ⟨trivial, trivial⟩
  · intro s args
    refine ⟨?_, ?_, ?_⟩
    · simp only [op_webgpu_command_encoder_copy_buffer_to_texture]
      rcases hg : s.table.getCommandEncoderId args.command_encoder_rid
        with e | enc
      · rfl
      · rcases hs : s.table.getBufferId args.source.buffer with e | sb
        · rfl
        · rcases hd : s.table.getTextureId args.destination.texture with e | dt
          · rfl
          · rfl
    · intro enc src dst ext hrec
      unfold copyBufferToTextureRecords at hrec
      split at hrec
      · simp_all
      · next enc' hg =>
        split at hrec
        · simp_all
        · next sb hs =>
          split at hrec
          · simp_all
          · next dt hd =>
            simp only [Except.ok.injEq, Prod.mk.injEq] at hrec
            obtain ⟨h1, h2, h3, h4⟩ := hrec
            subst h1; subst h2; subst h3; subst h4
            simp only [op_webgpu_command_encoder_copy_buffer_to_texture,
              hg, hs, hd]
    · intro e hrec
      unfold copyBufferToTextureRecords at hrec
      split at hrec
      · next e1 hg =>
        simp only [Except.error.injEq] at hrec
        subst hrec
        simp only [op_webgpu_command_encoder_copy_buffer_to_texture, hg]
      · next enc' hg =>
        split at hrec
        · next e1 hs =>
          simp only [Except.error.injEq] at hrec
          subst hrec
          simp only [op_webgpu_command_encoder_copy_buffer_to_texture, hg, hs]
        · next sb hs =>
          split at hrec
          · next e1 hd =>
            simp only [Except.error.injEq] at hrec
            subst hrec
            simp only [op_webgpu_command_encoder_copy_buffer_to_texture,
              hg, hs, hd]
          · simp_all

/-- C6 witness: a concrete buffer-to-texture copy on the sample state, with
its translation phase evaluated, and the begin-render-pass congruence applied
to two states sharing the sample table but different backends. -/
theorem descriptor_translation_pure_witness :
    (op_webgpu_command_encoder_begin_render_pass
        ⟨sampleTable, sampleBackend⟩ ⟨1, none, [], none, none⟩).1 =
      (op_webgpu_command_encoder_begin_render_pass
        ⟨sampleTable, sampleBackendOpenPass⟩ ⟨1, none, [], none, none⟩).1 ∧
    op_webgpu_command_encoder_copy_buffer_to_texture sampleState
        ⟨1, ⟨2, 0, none, none⟩, ⟨4, 0, ⟨0, 0, 0⟩, .all⟩, ⟨1, 1, 1⟩⟩ =
      (.ok (WebGpuResult.maybeErr
          (sampleState.backend.record 10
            (.copyBufferToTexture ⟨11, ⟨0, none, none⟩⟩
              ⟨13, 0, ⟨0, 0, 0⟩, .all⟩ ⟨1, 1, 1⟩)).1),
        ⟨sampleState.table,
          (sampleState.backend.record 10
            (.copyBufferToTexture ⟨11, ⟨0, none, none⟩⟩
              ⟨13, 0, ⟨0, 0, 0⟩, .all⟩ ⟨1, 1, 1⟩)).2⟩) :=
  ⟨(descriptor_translation_pure.1 ⟨sampleTable, sampleBackend⟩
      ⟨sampleTable, sampleBackendOpenPass⟩ ⟨1, none, [], none, none⟩ rfl).1,
   (descriptor_translation_pure.2 sampleState
      ⟨1, ⟨2, 0, none, none⟩, ⟨4, 0, ⟨0, 0, 0⟩, .all⟩, ⟨1, 1, 1⟩⟩).2.1
      10 ⟨11, ⟨0, none, none⟩⟩ ⟨13, 0, ⟨0, 0, 0⟩, .all⟩ ⟨1, 1, 1⟩ rfl⟩

/-- C4: if any referenced handle of a copy or begin-render-pass call fails
table lookup — encoder, buffer, texture, attachment view, resolve target or
depth/stencil view — the call fails with InvalidHandle and returns the state
unchanged: no backend command is issued and the encoder's recorded command
stream is untouched. -/
theorem handle_failure_aborts_unchanged :
    (∀ (s : OpState) (a : CommandEncoderCopyBufferToBufferArgs),
      ((∃ e, s.table.getCommandEncoderId a.command_encoder_rid = .error e) ∨
       (∃ e, s.table.getBufferId a.source = .error e) ∨
       (∃ e, s.table.getBufferId a.destination = .error e)) →
      op_webgpu_command_encoder_copy_buffer_to_buffer s a =
        (.error .invalidHandle, s)) ∧
    (∀ (s : OpState) (a : CommandEncoderCopyBufferToTextureArgs),
      ((∃ e, s.table.getCommandEncoderId a.command_encoder_rid = .error e) ∨
       (∃ e, s.table.getBufferId a.source.buffer = .error e) ∨
       (∃ e, s.table.getTextureId a.destination.texture = .error e)) →
      op_webgpu_command_encoder_copy_buffer_to_texture s a =
        (.error .invalidHandle, s)) ∧
    (∀ (s : OpState) (a : CommandEncoderCopyTextureToBufferArgs),
      ((∃ e, s.table.getCommandEncoderId a.command_encoder_rid = .error e) ∨
       (∃ e, s.table.getTextureId a.source.texture = .error e) ∨
       (∃ e, s.table.getBufferId a.destination.buffer = .error e)) →
      op_webgpu_command_encoder_copy_texture_to_buffer s a =
        (.error .invalidHandle, s)) ∧
    (∀ (s : OpState) (a : CommandEncoderCopyTextureToTextureArgs),
      ((∃ e, s.table.getCommandEncoderId a.command_encoder_rid = .error e) ∨
       (∃ e, s.table.getTextureId a.source.texture = .error e) ∨
       (∃ e, s.table.getTextureId a.destination.texture = .error e)) →
      op_webgpu_command_encoder_copy_texture_to_texture s a =
        (.error .invalidHandle, s)) ∧
    (∀ (s : OpState) (a : CommandEncoderBeginRenderPassArgs),
      ((∃ e, s.table.getCommandEncoderId a.command_encoder_rid = .error e) ∨
       (∃ ca, ca ∈ a.color_attachments ∧
          ((∃ e, s.table.getTextureViewId ca.view = .error e) ∨
           (∃ rid, ca.resolve_target = some rid ∧
             ∃ e, s.table.getTextureViewId rid = .error e))) ∨
       (∃ da, a.depth_stencil_attachment = some da ∧
          ∃ e, s.table.getTextureViewId da.view = .error e)) →
      op_webgpu_command_encoder_begin_render_pass s a =
        (.error .invalidHandle, s)) := by
  refine ⟨?_, ?_, ?_, ?_, ?_⟩
  · intro s a hfail
    simp only [op_webgpu_command_encoder_copy_buffer_to_buffer]
    rcases hg : s.table.getCommandEncoderId a.command_encoder_rid with e1 | c
    · have := getCommandEncoderId_error _ _ _ hg
      subst this
      simp only [hg]
    · rcases hs : s.table.getBufferId a.source with e1 | sb
      · have := getBufferId_error _ _ _ hs
        subst this
        simp only [hg, hs]
      · rcases hd : s.table.getBufferId a.destination with e1 | db
        · have := getBufferId_error _ _ _ hd
          subst this
          simp only [hg, hs, hd]
        · exfalso
          rcases hfail with ⟨e, he⟩ | ⟨e, he⟩ | ⟨e, he⟩ <;> simp_all
  · intro s a hfail
    simp only [op_webgpu_command_encoder_copy_buffer_to_texture]
    rcases hg : s.table.getCommandEncoderId a.command_encoder_rid with e1 | c
    · have := getCommandEncoderId_error _ _ _ hg
      subst this
      simp only [hg]
    · rcases hs : s.table.getBufferId a.source.buffer with e1 | sb
      · have := getBufferId_error _ _ _ hs
        subst this
        simp only [hg, hs]
      · rcases hd : s.table.getTextureId a.destination.texture with e1 | dt
        · have := getTextureId_error _ _ _ hd
          subst this
          simp only [hg, hs, hd]
        · exfalso
          rcases hfail with ⟨e, he⟩ | ⟨e, he⟩ | ⟨e, he⟩ <;> simp_all
  · intro s a hfail
    simp only [op_webgpu_command_encoder_copy_texture_to_buffer]
    rcases hg : s.table.getCommandEncoderId a.command_encoder_rid with e1 | c
    · have := getCommandEncoderId_error _ _ _ hg
      subst this
      simp only [hg]
    · rcases hs : s.table.getTextureId a.source.texture with e1 | st
      · have := getTextureId_error _ _ _ hs
        subst this
        simp only [hg, hs]
      · rcases hd : s.table.getBufferId a.destination.buffer with e1 | db
        · have := getBufferId_error _ _ _ hd
          subst this
          simp only [hg, hs, hd]
        · exfalso
          rcases hfail with ⟨e, he⟩ | ⟨e, he⟩ | ⟨e, he⟩ <;> simp_all
  · intro s a hfail
    simp only [op_webgpu_command_encoder_copy_texture_to_texture]
    rcases hg : s.table.getCommandEncoderId a.command_encoder_rid with e1 | c
    · have := getCommandEncoderId_error _ _ _ hg
      subst this
      simp only [hg]
    · rcases hs : s.table.getTextureId a.source.texture with e1 | st
      · have := getTextureId_error _ _ _ hs
        subst this
        simp only [hg, hs]
      · rcases hd : s.table.getTextureId a.destination.texture with e1 | dt
        · have := getTextureId_error _ _ _ hd
          subst this
          simp only [hg, hs, hd]
        · exfalso
          rcases hfail with ⟨e, he⟩ | ⟨e, he⟩ | ⟨e, he⟩ <;> simp_all
  · intro s a hfail
    simp only [op_webgpu_command_encoder_begin_render_pass]
    rcases hg : s.table.getCommandEncoderId a.command_encoder_rid with e1 | c
    · have := getCommandEncoderId_error _ _ _ hg
      subst this
      simp only [hg]
    · rcases hca : translateColorAttachments s.table a.color_attachments
        with e1 | cas
      · have := translateColorAttachments_error _ _ _ hca
        subst this
        simp only [hg, hca]
      · rcases hd : a.depth_stencil_attachment with _ | da
        · exfalso
          rcases hfail with ⟨e, he⟩ | ⟨ca, hmem, hvf⟩ | ⟨da, hda, e, he⟩
          · simp_all
          · have h1 := translateColorAttachment_fails s.table ca hvf
            have h2 :=
              translateColorAttachments_fails_of_mem s.table _ ca hmem h1
            simp_all
          · simp_all
        · rcases hdt : translateDepthStencilAttachment s.table da with e1 | dr
          · have := translateDepthStencilAttachment_error _ _ _ hdt
            subst this
            simp only [hg, hca, hd, hdt]
          · exfalso
            rcases hfail with ⟨e, he⟩ | ⟨ca, hmem, hvf⟩ | ⟨da2, hda2, e, he⟩
            · simp_all
            · have h1 := translateColorAttachment_fails s.table ca hvf
              have h2 :=
                translateColorAttachments_fails_of_mem s.table _ ca hmem h1
              simp_all
            · rw [hd] at hda2
              injection hda2 with hh
              subst hh
              unfold translateDepthStencilAttachment at hdt
              rw [he] at hdt
              cases hdt

/-- C4 witness: a buffer-to-texture copy naming the unknown buffer handle 99
and a begin-render-pass naming the unknown view handle 99 both fail with
InvalidHandle and leave the sample state unchanged. -/
theorem handle_failure_aborts_unchanged_witness :
    op_webgpu_command_encoder_copy_buffer_to_texture sampleState
        ⟨1, ⟨99, 0, none, none⟩, ⟨4, 0, ⟨0, 0, 0⟩, .all⟩, ⟨1, 1, 1⟩⟩ =
      (.error .invalidHandle, sampleState) ∧
    op_webgpu_command_encoder_begin_render_pass sampleState
        ⟨1, none, [⟨99, none, .Load, .Store⟩], none, none⟩ =
      (.error .invalidHandle, sampleState) :=
  ⟨handle_failure_aborts_unchanged.2.1 sampleState
      ⟨1, ⟨99, 0, none, none⟩, ⟨4, 0, ⟨0, 0, 0⟩, .all⟩, ⟨1, 1, 1⟩⟩
      (Or.inr (Or.inl ⟨.invalidHandle, rfl⟩)),
   handle_failure_aborts_unchanged.2.2.2.2 sampleState
      ⟨1, none, [⟨99, none, .Load, .Store⟩], none, none⟩
      (Or.inr (Or.inl ⟨⟨99, none, .Load, .Store⟩,
        List.mem_singleton.mpr rfl, Or.inl ⟨.invalidHandle, rfl⟩⟩))⟩

end DenoWebGpu
